import Mathlib

/-!
Shallow embedding of the JoeyVSpecial pick-tracking pipeline and proofs about it.

The embedding translates, function by function, the settlement / verification /
parsing / aggregation code of the repository:
  * `real_verification_system.py` (class RealVerificationSystem),
  * `real_pick_checker.py` (class RealPickChecker),
  * `automated_daily_system.py` (class AutomatedBettingSystem, verification loop),
  * `real_pick_parser.py` (class RealPickParser),
  * `real_only_dashboard.py` (get_stats_from_real_data),
  * `verify_yesterdays_picks.py` (generate_accuracy_report).

Conventions of the embedding:
  * Python dict fields that are read with `.get(key, default)` become `Option`
    fields (with `none` standing for an absent key or a JSON null);
    fields that are indexed directly (`d[key]`, raising `KeyError` when absent)
    become plain fields, since within the pipeline they are always present.
  * Python floats are modelled as `Rat` (exact arithmetic); ESPN scores, which
    the source converts with `int(...)`, are `Int`.
  * Network fetchers (the four `get_*_games` methods, which degrade to `[]` on
    any HTTP error) are an explicit parameter `fetch : String → String → List Game`
    of the orchestration functions, mirroring the spec's "Game Result Fetcher"
    collaborator boundary.
  * Code that can raise a Python exception is modelled in `Except String`;
    the modelled raise site is the `:+` format of a `None` line in
    `verify_spread_bet` (a real `TypeError` in the source).
  * The human-readable `notes` strings built by the source are elided (kept as
    `""`): no analysed property depends on their content, only on presence of
    the surrounding record.
  * String predicates model Python `str` methods on ASCII text.
-/

namespace JoeyV

/-! ### String helpers modelling Python `str` operations -/

/-- Contiguous-sublist test: Python `needle in hay` on the character lists
(the empty needle always matches). -/
def subList (needle hay : List Char) : Bool :=
  (List.range (hay.length + 1)).any (fun i => needle.isPrefixOf (hay.drop i))

/-- Python `needle in hay` substring containment on strings. -/
def strIn (needle hay : String) : Bool :=
  subList needle.toList hay.toList

/-- The characters Python's `str.split()` / `str.strip()` treat as whitespace. -/
def isPySpace (c : Char) : Bool :=
  c == ' ' || c == '\t' || c == '\n' || c == '\x0d' || c == '\x0b' || c == '\x0c'

/-- Python `s.split()`: split on whitespace runs, dropping empty pieces. -/
def pySplit (s : String) : List String :=
  (s.split isPySpace).filter (fun piece => piece ≠ "")

/-- Python `s.strip()`: drop leading and trailing whitespace. -/
def pyStrip (s : String) : String :=
  ⟨(((s.toList.dropWhile isPySpace).reverse.dropWhile isPySpace).reverse)⟩

/-! ### Data model of `real_verification_system.py`

`Game` flattens the ESPN event shape actually read by the source:
`game['competitions'][0]['competitors']` and
`game['status']['type']['completed']`. A `Competitor` keeps the fields read
from each entry: `team.displayName`, `homeAway` and the (int-converted)
`score`. -/

structure Competitor where
  displayName : String
  homeAway : String
  score : Int
deriving Repr, DecidableEq

structure Game where
  competitors : List Competitor
  completed : Bool
deriving Repr, DecidableEq

/-- The `game_info` dict attached by `verify_spread_bet` to a verified outcome. -/
structure GameInfo where
  away_team : String
  home_team : String
  away_score : Int
  home_score : Int
  spread_line : Rat
  bet_team : String
  spread_result : Rat
deriving Repr, DecidableEq

/-- A verification outcome dict: `status`, `result`, and (for settled spread
bets) `game_info`. The `notes` text of the source is elided as `""`. -/
structure Verification where
  status : String
  result : Option String
  notes : String := ""
  game_info : Option GameInfo := none
deriving Repr, DecidableEq

/-- A `structured_bet` dict as built by `real_pick_parser.parse_bet_match`
(and, for moneyline verification, rebuilt by `verify_moneyline_bet`). -/
structure StructuredBet where
  type : Option String := none
  player : Option String := none
  team : Option String := none
  side : Option String := none
  line : Option Rat := none
  stat : Option String := none
  raw_text : Option String := none
deriving Repr, DecidableEq

/-- A parsed pick/bet record as it flows through the verification pipeline. -/
structure Pick where
  expert : String := ""
  date : Option String := none
  scraped_date : Option String := none
  sport : Option String := none
  bet_type : Option String := none
  raw_pick_text : Option String := none
  structured_bet : StructuredBet := {}
  verification_status : String := ""
  verification : Option Verification := none
  verification_error : Option String := none
  verified_at : Option String := none
deriving Repr, DecidableEq

/-! ### Team alias tables (verify_spread_bet, lines 149-278) -/

def mlbMappings : List (String × List String) := [
  ("MIL", ["milwaukee", "brewers"]),
  ("LAD", ["los angeles", "dodgers"]),
  ("ATH", ["athletics", "oakland"]),
  ("TOR", ["toronto", "blue jays"]),
  ("TB", ["tampa bay", "rays"]),
  ("KC", ["kansas city", "royals"]),
  ("CLE", ["cleveland", "guardians"]),
  ("DET", ["detroit", "tigers"])]

def nhlMappings : List (String × List String) := [
  ("TOR", ["toronto", "maple leafs"]),
  ("BOS", ["boston", "bruins"]),
  ("NYR", ["new york", "rangers"]),
  ("NYI", ["new york", "islanders"]),
  ("FLA", ["florida", "panthers"]),
  ("TB", ["tampa bay", "lightning"]),
  ("WAS", ["washington", "capitals"]),
  ("CAR", ["carolina", "hurricanes"]),
  ("PHI", ["philadelphia", "flyers"]),
  ("PIT", ["pittsburgh", "penguins"]),
  ("COL", ["colorado", "avalanche"]),
  ("VGK", ["vegas", "golden knights"]),
  ("EDM", ["edmonton", "oilers"]),
  ("CGY", ["calgary", "flames"]),
  ("VAN", ["vancouver", "canucks"]),
  ("SEA", ["seattle", "kraken"]),
  ("MIN", ["minnesota", "wild"]),
  ("WPG", ["winnipeg", "jets"]),
  ("STL", ["st. louis", "blues"]),
  ("CHI", ["chicago", "blackhawks"]),
  ("NSH", ["nashville", "predators"]),
  ("DAL", ["dallas", "stars"]),
  ("ANA", ["anaheim", "ducks"]),
  ("LAK", ["los angeles", "kings"]),
  ("SJS", ["san jose", "sharks"]),
  ("ARI", ["arizona", "coyotes"]),
  ("NJD", ["new jersey", "devils"]),
  ("CBJ", ["columbus", "blue jackets"]),
  ("DET", ["detroit", "red wings"]),
  ("BUF", ["buffalo", "sabres"]),
  ("MTL", ["montreal", "canadiens"]),
  ("OTT", ["ottawa", "senators"])]

/-- College-football table. The Python dict literal binds `UT` and `MSU`
twice; as in Python, the later binding wins (see `dictGet`). -/
def cfbMappings : List (String × List String) := [
  ("OSU", ["oklahoma state", "cowboys"]),
  ("OKST", ["oklahoma state", "cowboys"]),
  ("TULSA", ["tulsa", "golden hurricane"]),
  ("OU", ["oklahoma", "sooners"]),
  ("BAYLOR", ["baylor", "bears"]),
  ("TCU", ["tcu", "horned frogs"]),
  ("TEXAS", ["texas", "longhorns"]),
  ("UT", ["texas", "longhorns"]),
  ("TAMU", ["texas a&m", "aggies"]),
  ("TTU", ["texas tech", "red raiders"]),
  ("WVU", ["west virginia", "mountaineers"]),
  ("ISU", ["iowa state", "cyclones"]),
  ("KU", ["kansas", "jayhawks"]),
  ("KSU", ["kansas state", "wildcats"]),
  ("UGA", ["georgia", "bulldogs"]),
  ("ALA", ["alabama", "crimson tide"]),
  ("BAMA", ["alabama", "crimson tide"]),
  ("LSU", ["lsu", "tigers"]),
  ("UF", ["florida", "gators"]),
  ("UT", ["tennessee", "volunteers"]),
  ("MISS", ["ole miss", "rebels"]),
  ("MSU", ["mississippi state", "bulldogs"]),
  ("SC", ["south carolina", "gamecocks"]),
  ("UK", ["kentucky", "wildcats"]),
  ("MIZZOU", ["missouri", "tigers"]),
  ("ARK", ["arkansas", "razorbacks"]),
  ("VANDY", ["vanderbilt", "commodores"]),
  ("CLEMSON", ["clemson", "tigers"]),
  ("FSU", ["florida state", "seminoles"]),
  ("MIAMI", ["miami", "hurricanes"]),
  ("VT", ["virginia tech", "hokies"]),
  ("UVA", ["virginia", "cavaliers"]),
  ("DUKE", ["duke", "blue devils"]),
  ("UNC", ["north carolina", "tar heels"]),
  ("NCSU", ["nc state", "wolfpack"]),
  ("WAKE", ["wake forest", "demon deacons"]),
  ("BC", ["boston college", "eagles"]),
  ("PITT", ["pittsburgh", "panthers"]),
  ("LOU", ["louisville", "cardinals"]),
  ("ND", ["notre dame", "fighting irish"]),
  ("OHIO", ["ohio state", "buckeyes"]),
  ("MICH", ["michigan", "wolverines"]),
  ("MSU", ["michigan state", "spartans"]),
  ("PSU", ["penn state", "nittany lions"]),
  ("WISC", ["wisconsin", "badgers"]),
  ("MINN", ["minnesota", "golden gophers"]),
  ("IOWA", ["iowa", "hawkeyes"]),
  ("ILL", ["illinois", "fighting illini"]),
  ("NW", ["northwestern", "wildcats"]),
  ("NEB", ["nebraska", "cornhuskers"]),
  ("IND", ["indiana", "hoosiers"]),
  ("PUR", ["purdue", "boilermakers"]),
  ("RUT", ["rutgers", "scarlet knights"]),
  ("MD", ["maryland", "terrapins"]),
  ("USC", ["usc", "trojans"]),
  ("UCLA", ["ucla", "bruins"]),
  ("WASH", ["washington", "huskies"]),
  ("ORE", ["oregon", "ducks"]),
  ("ORST", ["oregon state", "beavers"]),
  ("STAN", ["stanford", "cardinal"]),
  ("CAL", ["california", "golden bears"]),
  ("WSU", ["washington state", "cougars"]),
  ("UTAH", ["utah", "utes"]),
  ("COL", ["colorado", "buffaloes"]),
  ("ASU", ["arizona state", "sun devils"]),
  ("ARIZ", ["arizona", "wildcats"])]

def nflMappings : List (String × List String) := [
  ("MIA", ["miami", "dolphins"]),
  ("BUF", ["buffalo", "bills"]),
  ("KC", ["kansas city", "chiefs"]),
  ("CLE", ["cleveland", "browns"]),
  ("DET", ["detroit", "lions"])]

/-- Lookup in a Python dict literal given as an association list: a duplicated
key in the literal is overwritten by its later entry, so the last binding wins. -/
def dictGet {α : Type} (m : List (String × α)) (k : String) : Option α :=
  (m.reverse.find? (fun p => p.1 == k)).map (fun p => p.2)

/-- Table selection of `verify_spread_bet` (lines 151-276): the sport tag picks
the table; any other sport — including the empty tag of a bet without a sport
field — falls into the `else: # NFL or other` table. -/
def team_mappings (sport : String) : List (String × List String) :=
  if sport == "MLB" then mlbMappings
  else if sport == "NHL" || sport == "HOCKEY" then nhlMappings
  else if sport == "COLLEGE FOOTBALL" || sport == "CFB" then cfbMappings
  else nflMappings

/-- Line 278: `team_keywords = team_mappings.get(team, [team.lower()])`. -/
def team_keywords_for (sport team : String) : List String :=
  (dictGet (team_mappings sport) team).getD [team.toLower]

/-! ### Spread / moneyline settlement (verify_spread_bet, lines 280-346) -/

/-- Lines 310-340: settle a completed matched game. `bet_on_home` re-checks the
keywords against the home name; the picked side's score plus the (signed) line
is compared strictly against the opponent's raw score. -/
def settleCompleted (team_keywords : List String) (line : Rat)
    (home_team away_team : Competitor) : Verification :=
  let home_score := home_team.score
  let away_score := away_team.score
  let home_name := home_team.displayName.toLower
  let bet_on_home := team_keywords.any (fun kw => strIn kw home_name)
  if bet_on_home then
    let spread_result : Rat := (home_score : Rat) + line
    let won := spread_result > (away_score : Rat)
    { status := "verified",
      result := some (if won then "win" else "loss"),
      game_info := some {
        away_team := away_team.displayName, home_team := home_team.displayName,
        away_score := away_score, home_score := home_score,
        spread_line := line, bet_team := home_team.displayName,
        spread_result := spread_result } }
  else
    let spread_result : Rat := (away_score : Rat) + line
    let won := spread_result > (home_score : Rat)
    { status := "verified",
      result := some (if won then "win" else "loss"),
      game_info := some {
        away_team := away_team.displayName, home_team := home_team.displayName,
        away_score := away_score, home_score := home_score,
        spread_line := line, bet_team := away_team.displayName,
        spread_result := spread_result } }

/-- One iteration of the `for game in games` loop (lines 280-340): the team is
looked for in every competitor's display name; home and away are the last
competitors seen with the respective `homeAway` value; a matched game with both
sides present is gated on `completed` before settling. `none` means the loop
falls through to the next game. -/
def processGame (team_keywords : List String) (line : Rat) (game : Game) :
    Option Verification :=
  let competitors := game.competitors
  let team_found := competitors.any (fun comp =>
    team_keywords.any (fun keyword => strIn keyword comp.displayName.toLower))
  let home_team := (competitors.filter (fun comp => comp.homeAway == "home")).getLast?
  let away_team := (competitors.filter (fun comp => !(comp.homeAway == "home"))).getLast?
  match home_team, away_team with
  | some home, some away =>
    if team_found then
      if !game.completed then
        some { status := "game_not_completed", result := none }
      else
        some (settleCompleted team_keywords line home away)
    else none
  | _, _ => none

/-- The loop of lines 280-340 plus the fall-through return of lines 342-346. -/
def spreadLoop (team_keywords : List String) (line : Rat) : List Game → Verification
  | [] => { status := "team_not_found", result := none }
  | game :: rest =>
    match processGame team_keywords line game with
    | some v => v
    | none => spreadLoop team_keywords line rest

/-- `verify_spread_bet` (lines 141-346). Before anything else the source
prints the line with a `:+` format spec; when the structured bet has no line
(Python `None`) that raises a `TypeError`, modelled as the error case. -/
def verify_spread_bet (bet : Pick) (games : List Game) : Except String Verification :=
  let structured_bet := bet.structured_bet
  let team := (structured_bet.team.getD "").toUpper
  match structured_bet.line with
  | none => .error "TypeError: unsupported format string passed to NoneType.__format__"
  | some line =>
    let sport := (bet.sport.getD "").toUpper
    let keywords := team_keywords_for sport team
    .ok (spreadLoop keywords line games)

/-- `verify_moneyline_bet` (lines 348-357): the bet is rebuilt as a dict that
contains only `structured_bet.team` (upper-cased) and `structured_bet.line = 0`
— in particular no `sport` key — and handed to `verify_spread_bet`. -/
def verify_moneyline_bet (bet : Pick) (games : List Game) : Except String Verification :=
  let team := (bet.structured_bet.team.getD "").toUpper
  verify_spread_bet { structured_bet := { team := some team, line := some 0 } } games

/-- `verify_nfl_player_prop` (lines 101-139): only the hardcoded Ja'Marr Chase
receiving-yards special case can reach the Bengals-game scan; everything else is
an API-limitation outcome, never a win or a loss. -/
def verify_nfl_player_prop (bet : Pick) (games : List Game) : Verification :=
  let structured_bet := bet.structured_bet
  let player_name := (structured_bet.player.getD "").toLower
  let stat_type := (structured_bet.stat.getD "").toLower
  if strIn "chase" player_name && strIn "receiving" stat_type then
    match games.find? (fun game => game.competitors.any (fun comp =>
        strIn "bengals" comp.displayName.toLower ||
        strIn "cincinnati" comp.displayName.toLower)) with
    | some _ => { status := "needs_manual_verification", result := none }
    | none => { status := "api_limitation", result := none }
  else
    { status := "api_limitation", result := none }

def intl_hockey_indicators : List String :=
  ["hc davos", "kalpa", "ingolstadt", "wolfsburg",
   "int. hockey", "international hockey", "european"]

/-- `verify_bet` (lines 359-418): route on the sport tag to the matching
fetcher (the fetcher itself is the external collaborator parameter `fetch`),
apply the international-hockey guard for NHL bets, report when no games were
found, then dispatch on the bet type. `team_total` (and every other unlisted
bet type) lands in the `unsupported_bet_type` fallback. -/
def verify_bet (fetch : String → String → List Game) (bet : Pick)
    (date_str : String) : Except String Verification :=
  let sport := (bet.sport.getD "").toUpper
  let bet_type := bet.bet_type
  let dispatch : List Game → Except String Verification := fun games =>
    if games.isEmpty then
      .ok { status := "no_games_found", result := none }
    else if bet_type == some "player_prop" && sport == "NFL" then
      .ok (verify_nfl_player_prop bet games)
    else if bet_type == some "spread" then
      verify_spread_bet bet games
    else if bet_type == some "moneyline" then
      verify_moneyline_bet bet games
    else
      .ok { status := "unsupported_bet_type", result := none }
  if sport == "NFL" then dispatch (fetch "NFL" date_str)
  else if sport == "MLB" then dispatch (fetch "MLB" date_str)
  else if sport == "NHL" || sport == "HOCKEY" then
    let games := fetch "NHL" date_str
    let raw_text := (bet.raw_pick_text.getD "").toLower
    if intl_hockey_indicators.any (fun indicator => strIn indicator raw_text) then
      .ok { status := "international_hockey", result := none }
    else dispatch games
  else if sport == "COLLEGE FOOTBALL" || sport == "CFB" then
    dispatch (fetch "CFB" date_str)
  else
    .ok { status := "unsupported_sport", result := none }

/-- `verify_all_bets` (lines 420-461): the date string comes from the first
bet's `date` field (`'20250918'` for an empty batch); every bet is verified in
order and the outcome attached. There is no per-bet exception handler in this
loop, so a raising `verify_bet` aborts the whole batch (the `Except` error). -/
def verify_all_bets (fetch : String → String → List Game) (now : String)
    (bets : List Pick) : Except String (List Pick) :=
  let date_str := match bets.head? with
    | some b => (b.date.getD "").replace "-" ""
    | none => "20250918"
  bets.foldlM (fun acc bet =>
    (verify_bet fetch bet date_str).map (fun verification =>
      acc ++ [{ bet with verification := some verification,
                         verified_at := some now }])) []

/-! ### Verification loop of `automated_daily_system.py` (lines 117-162) -/

/-- The date string computed inside the per-pick `try` block (lines 140-141):
`pick.get('date', pick.get('scraped_date', '2025-09-18')).replace('-', '')`. -/
def date_str_of (pick : Pick) : String :=
  (pick.date.getD (pick.scraped_date.getD "2025-09-18")).replace "-" ""

/-- The body of the `for pick in pending_picks` loop (lines 137-162): a
successful verification attaches the outcome and marks the pick `completed`; a
raised exception is caught, the pick is marked `error` and the exception
message stored in `verification_error` (no `verification` dict is written in
that case). -/
def processPendingPick (fetch : String → String → List Game) (now : String)
    (pick : Pick) : Pick :=
  match verify_bet fetch pick (date_str_of pick) with
  | .ok v =>
    { pick with verification := some v, verified_at := some now,
                verification_status := "completed" }
  | .error e =>
    { pick with verification_status := "error", verification_error := some e }

/-- `verify_pending_picks` (lines 117-162) on the picks list of the daily
database: picks whose `verification_status` is `pending` are processed in
place (the loop runs over the filtered list but mutates the shared records),
everything else is left untouched. -/
def verify_pending_picks (fetch : String → String → List Game) (now : String)
    (picks : List Pick) : List Pick :=
  picks.map (fun pick =>
    if pick.verification_status == "pending" then processPendingPick fetch now pick
    else pick)

/-! ### `real_pick_checker.py`: MLB pick checking

`CheckerGame` is the flat game dict built by `check_mlb_results_today`
(lines 105-114); `CheckerPick` is a hand-maintained pick dict as in
`get_real_picks`. The `line` field of such a pick is a numeric string in the
source and is converted with `float(...)` at use site; it is modelled directly
as its numeric value. -/

structure CheckerGame where
  home_team : Option String := none
  away_team : Option String := none
  home_score : Int := 0
  away_score : Int := 0
  status : Option String := none
  completed : Bool := false
deriving Repr, DecidableEq

structure CheckerPick where
  expert : String := ""
  pick : Option String := none
  sport : Option String := none
  bet_type : Option String := none
  team : Option String := none
  line : Option Rat := none
  date : Option String := none
deriving Repr, DecidableEq

/-- The game-relevance test of `verify_mlb_pick` (lines 159-167): the whole
team name, or any whitespace-separated part of it, occurs in the home or away
name. (With an empty team name Python's `'' in s` is true, so the first game
matches.) -/
def matchesCheckerTeam (team_name : String) (game : CheckerGame) : Bool :=
  let home_team := (game.home_team.getD "").toLower
  let away_team := (game.away_team.getD "").toLower
  strIn team_name home_team || strIn team_name away_team ||
    (pySplit team_name).any (fun part => strIn part home_team) ||
    (pySplit team_name).any (fun part => strIn part away_team)

/-- `evaluate_mlb_moneyline` (lines 186-211). -/
def evaluate_mlb_moneyline (pick : CheckerPick) (game : CheckerGame) : Verification :=
  let team_name := (pick.team.getD "").toLower
  let home_team := (game.home_team.getD "").toLower
  let away_team := (game.away_team.getD "").toLower
  let home_score := game.home_score
  let away_score := game.away_score
  if (pySplit team_name).any (fun part => strIn part home_team) then
    { status := "verified",
      result := some (if home_score > away_score then "win" else "loss") }
  else if (pySplit team_name).any (fun part => strIn part away_team) then
    { status := "verified",
      result := some (if away_score > home_score then "win" else "loss") }
  else
    { status := "team_mismatch", result := none }

/-- `evaluate_mlb_spread` (lines 213-242): `adjusted_score = picked side's
score + line` compared strictly against the opponent's raw score. -/
def evaluate_mlb_spread (pick : CheckerPick) (game : CheckerGame) : Verification :=
  let team_name := (pick.team.getD "").toLower
  let line := pick.line.getD 0
  let home_team := (game.home_team.getD "").toLower
  let away_team := (game.away_team.getD "").toLower
  let home_score := game.home_score
  let away_score := game.away_score
  if (pySplit team_name).any (fun part => strIn part home_team) then
    let adjusted_score : Rat := (home_score : Rat) + line
    { status := "verified",
      result := some (if adjusted_score > (away_score : Rat) then "win" else "loss") }
  else if (pySplit team_name).any (fun part => strIn part away_team) then
    let adjusted_score : Rat := (away_score : Rat) + line
    { status := "verified",
      result := some (if adjusted_score > (home_score : Rat) then "win" else "loss") }
  else
    { status := "team_mismatch", result := none }

/-- `verify_mlb_pick` (lines 152-184): find the first relevant game; no game is
`game_not_found`; an uncompleted game is reported as `in_progress` (not
settled); otherwise dispatch on the bet type. -/
def verify_mlb_pick (pick : CheckerPick) (mlb_games : List CheckerGame) : Verification :=
  let team_name := (pick.team.getD "").toLower
  match mlb_games.find? (matchesCheckerTeam team_name) with
  | none => { status := "game_not_found", result := none }
  | some relevant_game =>
    if !relevant_game.completed then
      { status := "in_progress", result := none }
    else
      let bet_type := (pick.bet_type.getD "").toLower
      if bet_type == "moneyline" then evaluate_mlb_moneyline pick relevant_game
      else if bet_type == "spread" then evaluate_mlb_spread pick relevant_game
      else { status := "unsupported_bet", result := none }

/-! ### Insertion-ordered dictionaries (Python `dict` as used by the aggregators) -/

/-- Lookup in an insertion-ordered association list. -/
def aLookup {α : Type} (m : List (String × α)) (k : String) : Option α :=
  (m.find? (fun p => p.1 == k)).map (fun p => p.2)

/-- Update the first binding of `k` in place. -/
def updFirst {α : Type} : List (String × α) → String → (α → α) → List (String × α)
  | [], _, _ => []
  | (k', v) :: rest, k, f =>
    if k' == k then (k', f v) :: rest else (k', v) :: updFirst rest k f

/-- The Python idiom `if k not in d: d[k] = dflt` followed by in-place updates
of `d[k]`: an existing binding is updated in place, a new key is appended at
the end (Python dicts preserve insertion order). -/
def aUpsert {α : Type} (m : List (String × α)) (k : String) (dflt : α) (f : α → α) :
    List (String × α) :=
  if (aLookup m k).isSome then updFirst m k f else m ++ [(k, f dflt)]

/-! ### `real_only_dashboard.py`: get_stats_from_real_data (lines 46-128) -/

/-- A two-counter `⦃wins, losses⦄` sub-dict. -/
structure WL where
  wins : Nat := 0
  losses : Nat := 0
deriving Repr, DecidableEq

/-- The `verification` sub-dict of a verified bet, as read by the aggregators. -/
structure VRes where
  result : Option String := none
deriving Repr, DecidableEq

/-- A verified bet record as consumed by `get_stats_from_real_data`: `expert`
and `verification.result` are indexed directly, `sport` and `bet_type` default
to `'Unknown'`. -/
structure VBet where
  expert : String
  sport : Option String := none
  bet_type : Option String := none
  verification : VRes := {}
deriving Repr, DecidableEq

/-- The per-expert stats dict of `get_stats_from_real_data` (the `accuracy`
key only exists after the second pass of lines 99-104; its default here stands
for the key being absent during the first pass, where it is never read). -/
structure DashExpertStats where
  wins : Nat := 0
  losses : Nat := 0
  total : Nat := 0
  verified : Nat := 0
  unverified : Nat := 0
  sports : List (String × WL) := []
  bet_types : List (String × WL) := []
  picks : List VBet := []
  accuracy : Rat := 0
deriving Repr, DecidableEq

structure SportSummary where
  wins : Nat := 0
  losses : Nat := 0
  total : Nat := 0
deriving Repr, DecidableEq

structure DashStats where
  total_picks : Nat
  wins : Nat
  losses : Nat
  win_rate : Rat
  experts : List (String × DashExpertStats)
  sports_summary : List (String × SportSummary)
deriving Repr, DecidableEq

/-- Python `round(x, 1)` on the exact rational value (round half to even). -/
def pyRound1 (q : Rat) : Rat :=
  let x := q * 10
  let f : Int := Int.floor x
  let frac := x - (f : Rat)
  let r : Int :=
    if frac < 1/2 then f
    else if frac > 1/2 then f + 1
    else if f % 2 = 0 then f else f + 1
  (r : Rat) / 10

/-- The per-bet expert update of `get_stats_from_real_data` (lines 55-97):
`total` and `verified` always increase; `wins` increases only on result
`'win'`, ANY other result — `'loss'`, a push, `None` — increases `losses`
(the bare `else` of lines 76-79); the per-sport and per-bet-type counters
follow the same win/else split; the bet is appended to `picks`. -/
def dashAddBet (d : DashExpertStats) (bet : VBet) : DashExpertStats :=
  let result := bet.verification.result
  let sport := bet.sport.getD "Unknown"
  let bet_type := bet.bet_type.getD "Unknown"
  let d := { d with total := d.total + 1, verified := d.verified + 1 }
  let d := if result == some "win" then { d with wins := d.wins + 1 }
           else { d with losses := d.losses + 1 }
  let d := { d with sports := aUpsert d.sports sport {} (fun wl =>
              if result == some "win" then { wl with wins := wl.wins + 1 }
              else { wl with losses := wl.losses + 1 }) }
  let d := { d with bet_types := aUpsert d.bet_types bet_type {} (fun wl =>
              if result == some "win" then { wl with wins := wl.wins + 1 }
              else { wl with losses := wl.losses + 1 }) }
  { d with picks := d.picks ++ [bet] }

/-- `get_stats_from_real_data` (lines 46-128). -/
def get_stats_from_real_data (verified_bets : List VBet) : DashStats :=
  let total_picks := verified_bets.length
  let wins := (verified_bets.filter
    (fun bet => bet.verification.result == some "win")).length
  let losses := (verified_bets.filter
    (fun bet => bet.verification.result == some "loss")).length
  let win_rate : Rat :=
    if total_picks > 0 then (wins : Rat) / (total_picks : Rat) * 100 else 0
  let experts := verified_bets.foldl (fun m bet =>
    aUpsert m bet.expert {} (fun d => dashAddBet d bet)) []
  let experts := experts.map (fun p =>
    (p.1, { p.2 with accuracy :=
      if p.2.total > 0 then (p.2.wins : Rat) / (p.2.total : Rat) * 100 else 0 }))
  let sports_summary := verified_bets.foldl (fun m bet =>
    aUpsert m (bet.sport.getD "Unknown") {} (fun s =>
      let s := if bet.verification.result == some "win" then
                 { s with wins := s.wins + 1 }
               else { s with losses := s.losses + 1 }
      { s with total := s.total + 1 })) []
  { total_picks := total_picks, wins := wins, losses := losses,
    win_rate := pyRound1 win_rate, experts := experts,
    sports_summary := sports_summary }

/-! ### `verify_yesterdays_picks.py`: generate_accuracy_report (lines 68-172) -/

/-- A checked pick as consumed by `generate_accuracy_report`: `expert` and
`sport` are indexed directly; `verification` is read with
`.get('verification', {}).get('result')`. -/
structure CPick where
  expert : String
  sport : String
  pick : Option String := none
  verification : Option VRes := none
deriving Repr, DecidableEq

/-- `pick.get('verification', {}).get('result')`. -/
def reportResult (p : CPick) : Option String :=
  (p.verification.getD {}).result

structure ReportExpertData where
  picks : List CPick := []
  wins : Nat := 0
  losses : Nat := 0
deriving Repr, DecidableEq

structure ReportSportData where
  total : Nat := 0
  wins : Nat := 0
  losses : Nat := 0
deriving Repr, DecidableEq

structure AccuracyReport where
  date : String
  total_picks : Nat
  verified : Nat
  wins : Nat
  losses : Nat
  accuracy : Rat
  experts : List (String × ReportExpertData)
  sports : List (String × ReportSportData)
  picks : List CPick
deriving Repr, DecidableEq

/-- The per-pick expert update of `generate_accuracy_report` (lines 99-105):
the pick is appended, then `wins`/`losses` only move on an actual
`'win'`/`'loss'` result (`if`/`elif`, so a push or pending result leaves both
counters untouched). -/
def reportAddPick (d : ReportExpertData) (p : CPick) : ReportExpertData :=
  let d := { d with picks := d.picks ++ [p] }
  if reportResult p == some "win" then { d with wins := d.wins + 1 }
  else if reportResult p == some "loss" then { d with losses := d.losses + 1 }
  else d

/-- The experts dict of `generate_accuracy_report` (lines 93-105): every
pick's expert gets an entry, updated by `reportAddPick`. -/
def reportExperts (verified_picks : List CPick) : List (String × ReportExpertData) :=
  verified_picks.foldl (fun m p => aUpsert m p.expert {} (fun d => reportAddPick d p)) []

/-- `generate_accuracy_report` (lines 68-172). When no expert has a settled
(win/loss) pick the function prints a notice and returns early with `None`
(lines 110-115); otherwise it returns the report dict of lines 162-172, whose
`experts` value is the full experts dict — zero-count experts included. -/
def generate_accuracy_report (yesterday : String) (verified_picks : List CPick) :
    Option AccuracyReport :=
  let total_picks := verified_picks.length
  let wins := (verified_picks.filter (fun p => reportResult p == some "win")).length
  let losses := (verified_picks.filter (fun p => reportResult p == some "loss")).length
  let verified := wins + losses
  let experts := reportExperts verified_picks
  let experts_with_results := experts.filter (fun p => p.2.wins + p.2.losses > 0)
  if experts_with_results.isEmpty then none
  else
    let sports := verified_picks.foldl (fun m p =>
      aUpsert m p.sport {} (fun s =>
        let s := { s with total := s.total + 1 }
        if reportResult p == some "win" then { s with wins := s.wins + 1 }
        else if reportResult p == some "loss" then { s with losses := s.losses + 1 }
        else s)) []
    some { date := yesterday, total_picks := total_picks, verified := verified,
           wins := wins, losses := losses,
           accuracy := if verified > 0 then (wins : Rat) / (verified : Rat) * 100 else 0,
           experts := experts, sports := sports, picks := verified_picks }

/-! ### `real_pick_parser.py`: regular-expression engine

`extract_bet_from_text` runs five `re.finditer` scans with `re.IGNORECASE`.
The patterns use only character classes, literals, greedy `+`/`*`/`?`/`{2,4}`,
alternation and capture groups, so they are embedded as an AST plus a
backtracking matcher with Python `re` semantics (leftmost alternative
preferred, greedy quantifiers, non-overlapping left-to-right scan). Character
classes are modelled on ASCII text; `IGNORECASE` turns `[A-Z]`/`[a-z]` into
any-letter classes and makes literals case-insensitive. -/

/-- The character classes appearing in the five patterns. -/
inductive CC where
  | word
  | space
  | digit
  | alpha
  | alphaSpace
deriving Repr, DecidableEq

def ccMatch : CC → Char → Bool
  | .word, c => c.isAlphanum || c == '_'
  | .space, c => isPySpace c
  | .digit, c => c.isDigit
  | .alpha, c => c.isAlpha
  | .alphaSpace, c => c.isAlpha || isPySpace c

/-- Regex AST. `lit` is a case-insensitive literal character; `opt` and
`star` are greedy. -/
inductive RE where
  | eps : RE
  | cls : CC → RE
  | lit : Char → RE
  | seq : RE → RE → RE
  | alt : RE → RE → RE
  | opt : RE → RE
  | star : RE → RE
  | group : Nat → RE → RE
deriving Repr

def lits : List Char → RE
  | [] => .eps
  | c :: cs => .seq (.lit c) (lits cs)

def litStr (s : String) : RE := lits s.toList

/-- Greedy `+`. -/
def rePlus (r : RE) : RE := .seq r (.star r)

/-- Greedy `X\x7b2,4\x7d` (two to four repetitions, longest preferred). -/
def rep24 (r : RE) : RE := .seq r (.seq r (.opt (.seq r (.opt r))))

/-- Structural size of a regex, used to choose an adequate fuel. -/
def reSize : RE → Nat
  | .eps => 1
  | .cls _ => 1
  | .lit _ => 1
  | .seq a b => reSize a + reSize b + 1
  | .alt a b => reSize a + reSize b + 1
  | .opt r => reSize r + 1
  | .star r => reSize r + 1
  | .group _ r => reSize r + 1

/-- Backtracking matcher in continuation-passing style with Python `re`
semantics: the left alternative and the longer (greedy) quantifier expansion
are preferred, and a quantifier iteration that consumed nothing is not
repeated. Captures are collected most-recent-first. The recursion is
structural on `fuel`, which one unit per constructor descent and per `star`
iteration consumes; since every `star` iteration of the five patterns eats at
least one character, the fuel chosen in `tryAt` is never exhausted. -/
def mMatch : Nat → RE → List Char → List (Nat × List Char) →
    (List Char → List (Nat × List Char) → Option (List Char × List (Nat × List Char))) →
    Option (List Char × List (Nat × List Char))
  | 0, _, _, _, _ => none
  | fuel + 1, re, s, caps, k =>
    match re with
    | .eps => k s caps
    | .cls cc =>
      match s with
      | [] => none
      | c :: s' => if ccMatch cc c then k s' caps else none
    | .lit ch =>
      match s with
      | [] => none
      | c :: s' => if c.toLower == ch.toLower then k s' caps else none
    | .seq a b =>
      mMatch fuel a s caps (fun s' caps' => mMatch fuel b s' caps' k)
    | .alt a b =>
      match mMatch fuel a s caps k with
      | some res => some res
      | none => mMatch fuel b s caps k
    | .opt r =>
      match mMatch fuel r s caps k with
      | some res => some res
      | none => k s caps
    | .star r =>
      match mMatch fuel r s caps (fun s' caps' =>
        if s'.length < s.length then mMatch fuel (.star r) s' caps' k else none) with
      | some res => some res
      | none => k s caps
    | .group i r =>
      mMatch fuel r s caps (fun s' caps' =>
        k s' ((i, s.take (s.length - s'.length)) :: caps'))

/-- One regex match: start and end offset, matched text (`group(0)`),
captures. -/
structure MatchRes where
  start : Nat
  stop : Nat
  group0 : List Char
  caps : List (Nat × List Char)
deriving Repr

/-- Anchored match attempt at offset `pos`. -/
def tryAt (r : RE) (cs : List Char) (pos : Nat) : Option MatchRes :=
  let s := cs.drop pos
  ((mMatch ((s.length + 2) * (reSize r + 2)) r s []
      (fun s' caps => some (s', caps))).map (fun res =>
    let consumed := s.length - res.1.length
    { start := pos, stop := pos + consumed, group0 := s.take consumed,
      caps := res.2 }))

/-- `re.finditer` scan: try each offset left to right; a match is emitted and
the scan resumes at its end (one past it if it were empty), so matches are
non-overlapping and found in increasing position order. -/
def findIterAux (r : RE) (cs : List Char) : Nat → Nat → List MatchRes
  | _, 0 => []
  | pos, fuel + 1 =>
    if pos > cs.length then []
    else match tryAt r cs pos with
      | some m =>
        let next := if m.stop > pos then m.stop else pos + 1
        m :: findIterAux r cs next fuel
      | none => findIterAux r cs (pos + 1) fuel

def findIter (r : RE) (cs : List Char) : List MatchRes :=
  findIterAux r cs 0 (cs.length + 1)

/-! ### The five patterns of `extract_bet_from_text` (lines 34-45) -/

/-- `\d+\.?\d*` -/
def numRE : RE := .seq (rePlus (.cls .digit)) (.seq (.opt (.lit '.')) (.star (.cls .digit)))

/-- Over/Under pattern (line 36). -/
def p0re : RE :=
  .seq (.group 1 (.seq (rePlus (.cls .word))
         (.star (.seq (rePlus (.cls .space)) (rePlus (.cls .word))))))
  (.seq (rePlus (.cls .space))
  (.seq (.group 2 (.alt (litStr "Over") (litStr "Under")))
  (.seq (rePlus (.cls .space))
  (.seq (.group 3 numRE)
  (.seq (rePlus (.cls .space))
        (.group 4 (rePlus (.cls .alphaSpace))))))))

def p0src : String := "(\\w+(?:\\s+\\w+)*)\\s+(Over|Under)\\s+(\\d+\\.?\\d*)\\s+([A-Za-z\\s]+)"

/-- Spread pattern (line 38). -/
def p1re : RE :=
  .seq (.group 1 (rep24 (.cls .alpha)))
  (.seq (rePlus (.cls .space))
  (.seq (.opt (.seq (litStr "1H") (rePlus (.cls .space))))
        (.group 2 (.seq (.alt (.lit '+') (.lit '-')) numRE))))

def p1src : String := "([A-Z]\x7b2,4\x7d)\\s+(?:1H\\s+)?([+-]\\d+\\.?\\d*)"

/-- Moneyline pattern (line 40). -/
def p2re : RE :=
  .seq (.group 1 (rep24 (.cls .alpha)))
  (.seq (rePlus (.cls .space))
  (.seq (.opt (.seq (litStr "F5") (rePlus (.cls .space))))
        (litStr "ML")))

def p2src : String := "([A-Z]\x7b2,4\x7d)\\s+(?:F5\\s+)?ML"

/-- Team-total pattern (line 42). -/
def p3re : RE :=
  .seq (.group 1 (rep24 (.cls .alpha)))
  (.seq (rePlus (.cls .space))
  (.seq (litStr "TT")
  (.seq (rePlus (.cls .space))
  (.seq (.group 2 (.alt (litStr "Un") (litStr "Ov")))
  (.seq (rePlus (.cls .space))
        (.group 3 numRE))))))

def p3src : String := "([A-Z]\x7b2,4\x7d)\\s+TT\\s+(Un|Ov)\\s+(\\d+\\.?\\d*)"

/-- Player-prop `Ov` pattern (line 44). -/
def p4re : RE :=
  .seq (.group 1 (.seq (.cls .alpha)
         (.seq (.opt (.lit '.')) (.seq (rePlus (.cls .space)) (rePlus (.cls .word))))))
  (.seq (rePlus (.cls .space))
  (.seq (.group 2 (.alt (litStr "Ov") (litStr "Over")))
  (.seq (rePlus (.cls .space))
  (.seq (.group 3 numRE)
  (.seq (rePlus (.cls .space))
        (.group 4 (rePlus (.cls .alphaSpace))))))))

def p4src : String := "([A-Z]\\.?\\s+\\w+)\\s+(Ov|Over)\\s+(\\d+\\.?\\d*)\\s+([a-z\\s]+)"

def bet_patterns : List (String × RE) :=
  [(p0src, p0re), (p1src, p1re), (p2src, p2re), (p3src, p3re), (p4src, p4re)]

/-- Python `float(...)` on the numeric tokens produced by the patterns
(shape `[+-]?\d+\.?\d*`), as an exact rational. -/
def pyFloat (s : String) : Rat :=
  let cs := s.toList
  let signAndRest : Rat × List Char := match cs with
    | '+' :: rest => (1, rest)
    | '-' :: rest => (-1, rest)
    | _ => (1, cs)
  let intPart := signAndRest.2.takeWhile (fun c => c.isDigit)
  let afterInt := signAndRest.2.dropWhile (fun c => c.isDigit)
  let fracPart : List Char := match afterInt with
    | '.' :: fs => fs.takeWhile (fun c => c.isDigit)
    | _ => []
  let iv : Nat := intPart.foldl (fun acc c => acc * 10 + (c.toNat - 48)) 0
  let fv : Nat := fracPart.foldl (fun acc c => acc * 10 + (c.toNat - 48)) 0
  signAndRest.1 * ((iv : Rat) + (fv : Rat) / ((10 : Rat) ^ fracPart.length))

/-- Captured group `i` of a match, `''` when unbound. -/
def grp (m : MatchRes) (i : Nat) : String :=
  (((m.caps.find? (fun p => p.1 == i)).map (fun p => String.mk p.2))).getD ""

/-- `parse_bet_match` (lines 56-98): the branch is chosen by probing the REGEX
SOURCE TEXT for the fragments `Over|Under`, `[+-]`, `ML`, `TT` (in that
order). The fifth pattern's source contains none of them, so its matches fall
through to the final `return None` and are discarded. -/
def parse_bet_match (m : MatchRes) (pattern : String) : Option StructuredBet :=
  let raw := String.mk m.group0
  if strIn "Over|Under" pattern && m.caps.length ≥ 4 then
    some { type := some "player_prop", player := some (pyStrip (grp m 1)),
           side := some ((grp m 2).toLower), line := some (pyFloat (grp m 3)),
           stat := some (pyStrip (grp m 4)), raw_text := some raw }
  else if strIn "[+-]" pattern && m.caps.length ≥ 2 then
    some { type := some "spread", team := some (pyStrip (grp m 1)),
           line := some (pyFloat (grp m 2)), raw_text := some raw }
  else if strIn "ML" pattern then
    some { type := some "moneyline", team := some (pyStrip (grp m 1)),
           raw_text := some raw }
  else if strIn "TT" pattern && m.caps.length ≥ 3 then
    some { type := some "team_total", team := some (pyStrip (grp m 1)),
           side := some (if (grp m 2).toLower == "un" || (grp m 2).toLower == "under"
                         then "under" else "over"),
           line := some (pyFloat (grp m 3)), raw_text := some raw }
  else none

/-- `extract_bet_from_text` (lines 29-54): the five finditer scans run one
after the other, appending every parsed match — so the output is grouped by
pattern, in the fixed pattern order, not by position in the text. -/
def extract_bet_from_text (text : String) : List StructuredBet :=
  let cs := text.toList
  bet_patterns.foldl (fun bets pat =>
    bets ++ (findIter pat.2 cs).filterMap (fun m => parse_bet_match m pat.1)) []

/-! ### `clean_html`, `determine_sport`, `parse_pick` -/

/-- BeautifulSoup `get_text()` modelled for plain text and simple well-formed
markup: characters between `<` and `>` are dropped, the rest kept. -/
def stripTags : List Char → Bool → List Char
  | [], _ => []
  | c :: cs, true => stripTags cs (c ≠ '>')
  | c :: cs, false =>
    if c == '<' then stripTags cs true else c :: stripTags cs false

/-- `re.sub(r'\s+', ' ', text)`. -/
def collapseWsAux : List Char → Bool → List Char
  | [], _ => []
  | c :: cs, prevSpace =>
    if isPySpace c then
      if prevSpace then collapseWsAux cs true else ' ' :: collapseWsAux cs true
    else c :: collapseWsAux cs false

/-- `clean_html` (lines 18-27): falsy input gives `""`; otherwise the text of
the HTML with whitespace runs collapsed to single spaces, stripped. -/
def clean_html (html_text : String) : String :=
  if html_text == "" then ""
  else pyStrip (String.mk (collapseWsAux (stripTags html_text.toList false) false))

def mlb_team_abbrs : List String :=
  ["MIL", "LAD", "ATH", "TOR", "TB", "KC", "CLE", "DET", "NYY", "BOS", "BAL", "TB"]

def nfl_team_abbrs : List String :=
  ["MIA", "BUF", "NE", "NYJ", "PIT", "BAL", "CIN", "CLE"]

/-- `determine_sport` (lines 137-179). -/
def determine_sport (text : String) (bet : StructuredBet) : String :=
  let text_lower := text.toLower
  let bet_text := (bet.raw_text.getD "").toUpper
  if mlb_team_abbrs.any (fun team => strIn team bet_text &&
       !(team == "KC" || team == "CLE" || team == "DET")) then "MLB"
  else if nfl_team_abbrs.any (fun team => strIn team bet_text) then "NFL"
  else if strIn "recap" text_lower &&
       ["mlb", "f5", "baseball"].any (fun ind => strIn ind text_lower) then "MLB"
  else if strIn "recap" text_lower &&
       ["nfl", "1h", "rush yds"].any (fun ind => strIn ind text_lower) then "NFL"
  else if ["nfl", "receiving yards", "rush yds", "touchdown", "quarterback"].any
       (fun w => strIn w text_lower) then "NFL"
  else if ["mlb", "baseball", "home run", "rbi", "strikeout", "f5"].any
       (fun w => strIn w text_lower) then "MLB"
  else if (["nba", "basketball", "points", "rebounds", "assists"].any
       (fun w => strIn w text_lower)) && !(strIn "football" text_lower) then "NBA"
  else if ["soccer", "goal", "la liga", "bundesliga", "champions league"].any
       (fun w => strIn w text_lower) then "Soccer"
  else if ["college", "ncaa", "cfb"].any (fun w => strIn w text_lower) then
    "College Football"
  else if ["hockey", "nhl", "puck"].any (fun w => strIn w text_lower) then "Hockey"
  else "Unknown"

/-- A raw scraped pick dict as consumed by `parse_pick`. -/
structure PickData where
  expert : Option String := none
  pick : Option String := none
  date : Option String := none
  sport : Option String := none
deriving Repr, DecidableEq

/-- One entry of `parse_pick`'s result list. -/
structure ParsedBet where
  expert : String
  date : Option String
  sport : String
  bet_type : String
  raw_pick_text : String
  structured_bet : StructuredBet
  original_data : PickData
deriving Repr, DecidableEq

/-- `parse_pick` (lines 100-135): extract bets from the cleaned text; each
becomes a record with the first 200 characters of the cleaned text as
`raw_pick_text`. When nothing was extracted AND the cleaned text is non-empty
(the Python truthiness test on `clean_text`), exactly one `unknown` entry is
produced, whose structured bet carries only the first 100 characters as
`raw_text` (line 131) while the outer record still carries 200 (line 130). -/
def parse_pick (pick_data : PickData) : List ParsedBet :=
  let expert := pyStrip ((pick_data.expert.getD "").replace " Free Expert Pick" "")
  let raw_text := pick_data.pick.getD ""
  let clean_text := clean_html raw_text
  let bets := extract_bet_from_text clean_text
  let parsed_bets := bets.map (fun bet =>
    { expert := expert, date := pick_data.date,
      sport := determine_sport clean_text bet,
      bet_type := bet.type.getD "",
      raw_pick_text := clean_text.take 200,
      structured_bet := bet, original_data := pick_data })
  if parsed_bets.isEmpty && clean_text ≠ "" then
    [{ expert := expert, date := pick_data.date,
       sport := (let s0 := pick_data.sport.getD ""
                 if s0 ≠ "" then s0 else determine_sport clean_text {}),
       bet_type := "unknown",
       raw_pick_text := clean_text.take 200,
       structured_bet := { type := some "unknown",
                           raw_text := some (clean_text.take 100) },
       original_data := pick_data }]
  else parsed_bets

/-! ### Concrete example inputs used to instantiate the theorems -/

/-- A completed MLB game: Tampa Bay Rays 5, New York Yankees 3. -/
def exGameTB : Game :=
  { competitors := [
      { displayName := "New York Yankees", homeAway := "away", score := 3 },
      { displayName := "Tampa Bay Rays", homeAway := "home", score := 5 }],
    completed := true }

/-- A completed game where the picked (home) team scored 3 against 4. -/
def exGame34 : Game :=
  { competitors := [
      { displayName := "Toronto Blue Jays", homeAway := "home", score := 3 },
      { displayName := "Tampa Bay Rays", homeAway := "away", score := 4 }],
    completed := true }

/-- A completed game where the picked (home) team scored 6 against 4. -/
def exGame64 : Game :=
  { competitors := [
      { displayName := "Toronto Blue Jays", homeAway := "home", score := 6 },
      { displayName := "Tampa Bay Rays", homeAway := "away", score := 4 }],
    completed := true }

/-- An uncompleted game with live scores already present. -/
def exGameLive : Game :=
  { competitors := [
      { displayName := "Toronto Blue Jays", homeAway := "home", score := 2 },
      { displayName := "Tampa Bay Rays", homeAway := "away", score := 1 }],
    completed := false }

/-- An MLB moneyline bet on TB. -/
def exPickMLofTB : Pick :=
  { sport := some "MLB", bet_type := some "moneyline",
    structured_bet := { type := some "moneyline", team := some "TB" } }

/-- An MLB team-total bet: TB team total under 31.5. -/
def exPickTTofTB : Pick :=
  { sport := some "MLB", bet_type := some "team_total",
    structured_bet := { type := some "team_total", team := some "TB",
                        side := some "under", line := some (63 / 2) } }

/-- An MLB spread bet: TOR -1.5. -/
def exPickSpreadTOR : Pick :=
  { sport := some "MLB", bet_type := some "spread",
    structured_bet := { type := some "spread", team := some "TOR",
                        line := some (-3 / 2) } }

/-- A pending spread bet whose structured bet has no line: verifying it makes
the source raise a `TypeError` at the `:+` format of line 147. -/
def exPickBadSpread : Pick :=
  { sport := some "MLB", bet_type := some "spread",
    verification_status := "pending",
    structured_bet := { type := some "spread", team := some "TOR" } }

/-- A pending, well-formed moneyline bet. -/
def exPickPendingML : Pick :=
  { sport := some "MLB", bet_type := some "moneyline",
    verification_status := "pending",
    structured_bet := { type := some "moneyline", team := some "TB" } }

/-- An uncompleted checker game with live scores present. -/
def exCheckerLive : CheckerGame :=
  { home_team := some "Toronto Blue Jays", away_team := some "Tampa Bay Rays",
    home_score := 2, away_score := 1, completed := false }

/-- A checker pick on the Toronto Blue Jays run line. -/
def exCheckerPick : CheckerPick :=
  { team := some "Toronto Blue Jays", bet_type := some "spread",
    line := some (-3 / 2) }

/-- 120 characters that match none of the five bet patterns. -/
def dotsText : String := String.mk (List.replicate 120 '.')

/-- A verified bet whose result is a push (neither win nor loss). -/
def exPushVBet : VBet := { expert := "X", verification := { result := some "push" } }

/-- A checked pick whose result is a push. -/
def exPushCPick : CPick :=
  { expert := "X", sport := "MLB", verification := some { result := some "push" } }

/-- A checked pick with a win result. -/
def exWinCPick : CPick :=
  { expert := "Y", sport := "MLB", verification := some { result := some "win" } }

/-- An MLB spread bet on a code unknown to every table. -/
def exPickSpreadZZZ : Pick :=
  { sport := some "MLB", bet_type := some "spread",
    structured_bet := { type := some "spread", team := some "ZZZ",
                        line := some (-3 / 2) } }

/-! ## Lemmas -/

theorem settleCompleted_status (kws : List String) (l : Rat) (home away : Competitor) :
    (settleCompleted kws l home away).status = "verified" := by
  simp only [settleCompleted]
  split <;> rfl

theorem settleCompleted_result_win_iff (kws : List String) (l : Rat)
    (home away : Competitor) :
    ((settleCompleted kws l home away).result = some "win" ↔
      (if kws.any (fun kw => strIn kw home.displayName.toLower)
       then (home.score : Rat) + l > (away.score : Rat)
       else (away.score : Rat) + l > (home.score : Rat))) := by
  simp only [settleCompleted]
  cases hb : (kws.any fun kw => strIn kw home.displayName.toLower)
  · by_cases hw : (away.score : Rat) + l > (home.score : Rat) <;> simp [hw]
  · by_cases hw : (home.score : Rat) + l > (away.score : Rat) <;> simp [hw]

theorem settleCompleted_result_loss_iff (kws : List String) (l : Rat)
    (home away : Competitor) :
    ((settleCompleted kws l home away).result = some "loss" ↔
      ¬(if kws.any (fun kw => strIn kw home.displayName.toLower)
        then (home.score : Rat) + l > (away.score : Rat)
        else (away.score : Rat) + l > (home.score : Rat))) := by
  simp only [settleCompleted]
  cases hb : (kws.any fun kw => strIn kw home.displayName.toLower)
  · by_cases hw : (away.score : Rat) + l > (home.score : Rat) <;> simp [hw]
  · by_cases hw : (home.score : Rat) + l > (away.score : Rat) <;> simp [hw]

theorem evaluate_mlb_spread_win_iff (pick : CheckerPick) (game : CheckerGame) :
    ((evaluate_mlb_spread pick game).result = some "win" ↔
      (if (pySplit ((pick.team.getD "").toLower)).any
           (fun part => strIn part ((game.home_team.getD "").toLower))
       then (game.home_score : Rat) + pick.line.getD 0 > (game.away_score : Rat)
       else if (pySplit ((pick.team.getD "").toLower)).any
           (fun part => strIn part ((game.away_team.getD "").toLower))
       then (game.away_score : Rat) + pick.line.getD 0 > (game.home_score : Rat)
       else False)) := by
  simp only [evaluate_mlb_spread]
  cases hh : ((pySplit ((pick.team.getD "").toLower)).any
      (fun part => strIn part ((game.home_team.getD "").toLower)))
  · cases ha : ((pySplit ((pick.team.getD "").toLower)).any
        (fun part => strIn part ((game.away_team.getD "").toLower)))
    · simp
    · by_cases hw : (game.away_score : Rat) + pick.line.getD 0 > (game.home_score : Rat) <;>
        simp [hw]
  · by_cases hw : (game.home_score : Rat) + pick.line.getD 0 > (game.away_score : Rat) <;>
      simp [hw]

theorem processGame_uncompleted (kws : List String) (l : Rat) (g : Game)
    (v : Verification) (hc : g.completed = false) (hp : processGame kws l g = some v) :
    v = { status := "game_not_completed", result := none } := by
  simp only [processGame, hc, Bool.not_false, if_true] at hp
  split at hp
  · split at hp
    · exact (Option.some_inj.mp hp).symm
    · exact absurd hp (by simp)
  · exact absurd hp (by simp)

theorem spreadLoop_all_uncompleted (kws : List String) (l : Rat) (games : List Game)
    (h : ∀ g ∈ games, g.completed = false) :
    (spreadLoop kws l games).result = none ∧
    ((spreadLoop kws l games).status = "game_not_completed" ∨
     (spreadLoop kws l games).status = "team_not_found") := by
  induction games with
  | nil => exact ⟨rfl, Or.inr rfl⟩
  | cons g gs ih =>
    have hg : g.completed = false := h g (by simp)
    have hrest : ∀ g' ∈ gs, g'.completed = false := fun g' hm => h g' (by simp [hm])
    simp only [spreadLoop]
    cases hp : processGame kws l g with
    | none => exact ih hrest
    | some v =>
      rw [processGame_uncompleted kws l g v hg hp]
      exact ⟨rfl, Or.inl rfl⟩

theorem processGame_no_match (kws : List String) (l : Rat) (g : Game)
    (h : ∀ c ∈ g.competitors, ∀ kw ∈ kws, strIn kw c.displayName.toLower = false) :
    processGame kws l g = none := by
  have hf : (g.competitors.any
      (fun comp => kws.any (fun kw => strIn kw comp.displayName.toLower))) = false := by
    simp only [List.any_eq_false]
    intro c hc
    simp only [List.any_eq_true, not_exists, not_and]
    intro kw hkw
    simp [h c hc kw hkw]
  simp only [processGame, hf]
  split <;> simp

theorem spreadLoop_no_match (kws : List String) (l : Rat) (games : List Game)
    (h : ∀ g ∈ games, ∀ c ∈ g.competitors, ∀ kw ∈ kws,
      strIn kw c.displayName.toLower = false) :
    spreadLoop kws l games = { status := "team_not_found", result := none } := by
  induction games with
  | nil => rfl
  | cons g gs ih =>
    simp only [spreadLoop, processGame_no_match kws l g (h g (by simp))]
    exact ih (fun g' hm => h g' (by simp [hm]))

theorem verify_pending_length_get (fetch : String → String → List Game) (now : String)
    (picks : List Pick) :
    (verify_pending_picks fetch now picks).length = picks.length ∧
    (∀ (i : Nat) (p : Pick), picks[i]? = some p →
      (verify_pending_picks fetch now picks)[i]? =
        some (if p.verification_status == "pending"
              then processPendingPick fetch now p else p)) := by
  constructor
  · simp [verify_pending_picks]
  · intro i p hget
    simp [verify_pending_picks, List.getElem?_map, hget]

theorem verify_mlb_pick_all_uncompleted (pick : CheckerPick) (games : List CheckerGame)
    (h : ∀ g ∈ games, g.completed = false) :
    (verify_mlb_pick pick games).result = none ∧
    ((verify_mlb_pick pick games).status = "in_progress" ∨
     (verify_mlb_pick pick games).status = "game_not_found") := by
  simp only [verify_mlb_pick]
  cases hf : games.find? (matchesCheckerTeam ((pick.team.getD "").toLower)) with
  | none => exact ⟨rfl, Or.inr rfl⟩
  | some g =>
    have hg : g.completed = false := h g (List.mem_of_find?_eq_some hf)
    simp [hg]

/-! ## Claims -/

/-- C3: for every spread bet matched to a completed game, settlement computes
adjustedScore = pickedTeamScore + line (line already signed) and returns
result=win iff adjustedScore is strictly greater than the opponent's raw
score, otherwise result=loss — both in `settleCompleted` (the settlement step
of `verify_spread_bet`, applied to the matched completed game) and in
`evaluate_mlb_spread`; in particular picked score 3 vs opponent 4 at line
-1.5 is a loss and picked score 6 vs opponent 4 at line -1.5 is a win,
end to end through `verify_bet`. -/
theorem C3_spread_settlement :
    (∀ (kws : List String) (l : Rat) (home away : Competitor),
      (settleCompleted kws l home away).status = "verified" ∧
      ((settleCompleted kws l home away).result = some "win" ↔
        (if kws.any (fun kw => strIn kw home.displayName.toLower)
         then (home.score : Rat) + l > (away.score : Rat)
         else (away.score : Rat) + l > (home.score : Rat))) ∧
      ((settleCompleted kws l home away).result = some "loss" ↔
        ¬(if kws.any (fun kw => strIn kw home.displayName.toLower)
          then (home.score : Rat) + l > (away.score : Rat)
          else (away.score : Rat) + l > (home.score : Rat)))) ∧
    (∀ (pick : CheckerPick) (game : CheckerGame),
      ((evaluate_mlb_spread pick game).result = some "win" ↔
        (if (pySplit ((pick.team.getD "").toLower)).any
             (fun part => strIn part ((game.home_team.getD "").toLower))
         then (game.home_score : Rat) + pick.line.getD 0 > (game.away_score : Rat)
         else if (pySplit ((pick.team.getD "").toLower)).any
             (fun part => strIn part ((game.away_team.getD "").toLower))
         then (game.away_score : Rat) + pick.line.getD 0 > (game.home_score : Rat)
         else False))) ∧
    verify_bet (fun _ _ => [exGame34]) exPickSpreadTOR "20250918" =
      Except.ok { status := "verified", result := some "loss",
                  game_info := some { away_team := "Tampa Bay Rays",
                                      home_team := "Toronto Blue Jays",
                                      away_score := 4, home_score := 3,
                                      spread_line := -3 / 2,
                                      bet_team := "Toronto Blue Jays",
                                      spread_result := 3 / 2 } } ∧
    verify_bet (fun _ _ => [exGame64]) exPickSpreadTOR "20250918" =
      Except.ok { status := "verified", result := some "win",
                  game_info := some { away_team := "Tampa Bay Rays",
                                      home_team := "Toronto Blue Jays",
                                      away_score := 4, home_score := 6,
                                      spread_line := -3 / 2,
                                      bet_team := "Toronto Blue Jays",
                                      spread_result := 9 / 2 } } := by
  refine ⟨?_, ?_, ?_, ?_⟩
  · intro kws l home away
    exact ⟨settleCompleted_status kws l home away,
      settleCompleted_result_win_iff kws l home away,
      settleCompleted_result_loss_iff kws l home away⟩
  · intro pick game
    exact evaluate_mlb_spread_win_iff pick game
  · with_unfolding_all rfl
  · with_unfolding_all rfl

/-- C10: `verify_moneyline_bet` returns exactly the result of
`verify_spread_bet` on a reconstructed bet containing only the upper-cased
team and line 0 (its `sport` field is absent); the outcome is therefore
independent of the original bet's sport tag, and a matched completed game
settles to win iff the picked team's score is strictly greater than the
opponent's. -/
theorem C10_moneyline_refinement :
    (∀ (bet : Pick) (games : List Game),
      verify_moneyline_bet bet games =
        verify_spread_bet
          { structured_bet := { team := some ((bet.structured_bet.team.getD "").toUpper),
                                line := some 0 } } games) ∧
    (∀ (team : Option String),
      ({ structured_bet := { team := team, line := some 0 } } : Pick).sport = none) ∧
    (∀ (bet : Pick) (games : List Game) (s : Option String),
      verify_moneyline_bet { bet with sport := s } games = verify_moneyline_bet bet games) ∧
    (∀ (kws : List String) (home away : Competitor),
      ((settleCompleted kws 0 home away).result = some "win" ↔
        (if kws.any (fun kw => strIn kw home.displayName.toLower)
         then home.score > away.score else away.score > home.score))) := by
  refine ⟨fun bet games => rfl, fun team => rfl, fun bet games s => rfl, ?_⟩
  intro kws home away
  rw [settleCompleted_result_win_iff]
  cases hb : (kws.any fun kw => strIn kw home.displayName.toLower)
  · simp only [Bool.false_eq_true, if_false, add_zero, gt_iff_lt, Int.cast_lt]
  · simp only [if_true, add_zero, gt_iff_lt, Int.cast_lt]

/-- C1 counterexample: an MLB team-total bet (TB team total under 31.5) whose
team matches a completed game in which the picked team scored 5 (< 31.5, so
the claim demands result=win) is answered by `verify_bet` with
status=unsupported_bet_type and result=null — team totals are never settled,
and a score equal to the line could likewise never produce status=push. -/
theorem C1_counterexample :
    verify_bet (fun _ _ => [exGameTB]) exPickTTofTB "20250918" =
      Except.ok { status := "unsupported_bet_type", result := none } ∧
    exGameTB.completed = true ∧
    ((team_keywords_for "MLB" "TB").any
      (fun kw => strIn kw ("Tampa Bay Rays".toLower))) = true ∧
    exPickTTofTB.structured_bet.side = some "under" ∧
    ((5 : Rat) < 63 / 2) ∧
    "unsupported_bet_type" ≠ "push" :=
  ⟨by with_unfolding_all rfl, rfl, by with_unfolding_all decide, rfl,
   by with_unfolding_all decide, by decide⟩

/-- C1 (amended): team_total bets are never settled: for every bet whose
bet_type is team_total, `verify_bet` returns — without raising — an outcome
with result=null and a status that is never "push" (when the sport is
supported and games were found, the status is `unsupported_bet_type`, the
fallback dispatch branch). -/
theorem C1_team_total_never_settled (fetch : String → String → List Game)
    (bet : Pick) (date_str : String) (h : bet.bet_type = some "team_total") :
    ∃ v, verify_bet fetch bet date_str = Except.ok v ∧
      v.result = none ∧ v.status ≠ "push" := by
  simp only [verify_bet, h]
  split
  · split
    · exact ⟨_, rfl, rfl, by decide⟩
    · exact ⟨_, rfl, rfl, by decide⟩
  · split
    · split
      · exact ⟨_, rfl, rfl, by decide⟩
      · exact ⟨_, rfl, rfl, by decide⟩
    · split
      · split
        · exact ⟨_, rfl, rfl, by decide⟩
        · split
          · exact ⟨_, rfl, rfl, by decide⟩
          · exact ⟨_, rfl, rfl, by decide⟩
      · split
        · split
          · exact ⟨_, rfl, rfl, by decide⟩
          · exact ⟨_, rfl, rfl, by decide⟩
        · exact ⟨_, rfl, rfl, by decide⟩

/-- C5 counterexample: resolution is not sport-scoped for moneyline bets. An
MLB moneyline bet on TB against a completed Tampa Bay Rays game comes back
`team_not_found` (the sport tag was dropped, so the default/NFL table ruled
and TB fell back to the fragment "tb", which does not occur in
"tampa bay rays"), while the same matching with the bet's own MLB table —
as `verify_spread_bet` with the sport tag kept does — settles the game. -/
theorem C5_counterexample :
    verify_bet (fun _ _ => [exGameTB]) exPickMLofTB "20250918" =
      Except.ok { status := "team_not_found", result := none } ∧
    verify_spread_bet { sport := some "MLB",
                        structured_bet := { team := some "TB", line := some 0 } }
        [exGameTB] =
      Except.ok { status := "verified", result := some "win",
                  game_info := some { away_team := "New York Yankees",
                                      home_team := "Tampa Bay Rays",
                                      away_score := 3, home_score := 5,
                                      spread_line := 0,
                                      bet_team := "Tampa Bay Rays",
                                      spread_result := 5 } } ∧
    team_keywords_for "MLB" "TB" = ["tampa bay", "rays"] ∧
    team_keywords_for "" "TB" = ["tb"] ∧
    exPickMLofTB.sport = some "MLB" :=
  ⟨by with_unfolding_all rfl, by with_unfolding_all rfl,
   by with_unfolding_all decide, by with_unfolding_all decide, rfl⟩

/-- C5 (amended): spread verification selects the fragment table by the bet's
sport tag, but every sport other than MLB / NHL / HOCKEY / COLLEGE FOOTBALL /
CFB — including a missing tag — silently falls back to the NFL table; and
moneyline verification rebuilds the bet without its sport tag, so it always
consults the default (NFL) table whatever the bet's sport was. -/
theorem C5_alias_scoping :
    (∀ (bet : Pick) (games : List Game) (l : Rat),
      bet.structured_bet.line = some l →
      verify_spread_bet bet games =
        Except.ok (spreadLoop
          (team_keywords_for ((bet.sport.getD "").toUpper)
            ((bet.structured_bet.team.getD "").toUpper)) l games)) ∧
    (∀ (bet : Pick) (games : List Game),
      verify_moneyline_bet bet games =
        verify_spread_bet
          { structured_bet := { team := some ((bet.structured_bet.team.getD "").toUpper),
                                line := some 0 } } games ∧
      ({ structured_bet := { team := some ((bet.structured_bet.team.getD "").toUpper),
                             line := some 0 } } : Pick).sport = none) ∧
    team_mappings "" = nflMappings ∧
    team_mappings "MLB" = mlbMappings ∧
    (∀ s : String, s ≠ "MLB" → s ≠ "NHL" → s ≠ "HOCKEY" →
      s ≠ "COLLEGE FOOTBALL" → s ≠ "CFB" → team_mappings s = nflMappings) := by
  refine ⟨?_, fun bet games => ⟨rfl, rfl⟩, by decide, by decide, ?_⟩
  · intro bet games l h
    simp only [verify_spread_bet, h]
  · intro s h1 h2 h3 h4 h5
    have e1 : (s == "MLB") = false := by simp [h1]
    have e2 : (s == "NHL") = false := by simp [h2]
    have e3 : (s == "HOCKEY") = false := by simp [h3]
    have e4 : (s == "COLLEGE FOOTBALL") = false := by simp [h4]
    have e5 : (s == "CFB") = false := by simp [h5]
    simp [team_mappings, e1, e2, e3, e4, e5]

/-- C7 counterexample: in `verify_mlb_pick` a bet matched to an uncompleted
game (with live scores already present) is reported with status=in_progress,
not status=game_not_completed as the claim states; the result is null. -/
theorem C7_counterexample :
    verify_mlb_pick exCheckerPick [exCheckerLive] =
      { status := "in_progress", result := none } ∧
    "in_progress" ≠ "game_not_completed" ∧
    exCheckerLive.completed = false ∧
    exCheckerLive.home_score = 2 :=
  ⟨by with_unfolding_all rfl, by decide, rfl, rfl⟩

/-- C7 (amended): a bet matched to an uncompleted game is never settled from
the partial score: in `verify_spread_bet`'s loop the matched-but-uncompleted
game yields status=game_not_completed with result=null, and over a batch of
uncompleted games the outcome is always result=null with status
game_not_completed or team_not_found; `verify_mlb_pick` behaves the same but
labels the uncompleted case status=in_progress (game_not_found when
unmatched). -/
theorem C7_completion_gate :
    (∀ (kws : List String) (l : Rat) (g : Game) (v : Verification),
      g.completed = false → processGame kws l g = some v →
      v = { status := "game_not_completed", result := none }) ∧
    (∀ (kws : List String) (l : Rat) (games : List Game),
      (∀ g ∈ games, g.completed = false) →
      (spreadLoop kws l games).result = none ∧
      ((spreadLoop kws l games).status = "game_not_completed" ∨
       (spreadLoop kws l games).status = "team_not_found")) ∧
    (∀ (pick : CheckerPick) (games : List CheckerGame),
      (∀ g ∈ games, g.completed = false) →
      (verify_mlb_pick pick games).result = none ∧
      ((verify_mlb_pick pick games).status = "in_progress" ∨
       (verify_mlb_pick pick games).status = "game_not_found")) :=
  ⟨fun kws l g v hc hp => processGame_uncompleted kws l g v hc hp,
   fun kws l games h => spreadLoop_all_uncompleted kws l games h,
   fun pick games h => verify_mlb_pick_all_uncompleted pick games h⟩

/-- C7 witness: the completion gate instantiated on a concrete uncompleted
game (home score 2 already present). -/
theorem C7_witness :
    (exGameLive.completed = false ∧
     processGame ["toronto"] 0 exGameLive =
       some { status := "game_not_completed", result := none } ∧
     ({ status := "game_not_completed", result := none } : Verification) =
       { status := "game_not_completed", result := none }) ∧
    ((∀ g ∈ [exGameLive], g.completed = false) ∧
     (spreadLoop ["toronto"] 0 [exGameLive]).result = none ∧
     ((spreadLoop ["toronto"] 0 [exGameLive]).status = "game_not_completed" ∨
      (spreadLoop ["toronto"] 0 [exGameLive]).status = "team_not_found")) ∧
    ((verify_mlb_pick exCheckerPick [exCheckerLive]).result = none ∧
     ((verify_mlb_pick exCheckerPick [exCheckerLive]).status = "in_progress" ∨
      (verify_mlb_pick exCheckerPick [exCheckerLive]).status = "game_not_found")) :=
  ⟨⟨rfl, by with_unfolding_all rfl,
    C7_completion_gate.1 ["toronto"] 0 exGameLive
      { status := "game_not_completed", result := none } rfl
      (by with_unfolding_all rfl)⟩,
   ⟨by decide, C7_completion_gate.2.1 ["toronto"] 0 [exGameLive] (by decide)⟩,
   C7_completion_gate.2.2 exCheckerPick [exCheckerLive] (by decide)⟩

/-- C1 witness: the never-settled property instantiated on the concrete
team-total bet. -/
theorem C1_witness :
    exPickTTofTB.bet_type = some "team_total" ∧
    (∃ v, verify_bet (fun _ _ => [exGameTB]) exPickTTofTB "20250918" = Except.ok v ∧
      v.result = none ∧ v.status ≠ "push") :=
  ⟨rfl, C1_team_total_never_settled (fun _ _ => [exGameTB]) exPickTTofTB "20250918" rfl⟩

/-- C5 witness: the sport-scoped spread equation instantiated on the concrete
TOR -1.5 bet. -/
theorem C5_witness :
    exPickSpreadTOR.structured_bet.line = some (-3 / 2) ∧
    verify_spread_bet exPickSpreadTOR [exGame34] =
      Except.ok (spreadLoop
        (team_keywords_for ((exPickSpreadTOR.sport.getD "").toUpper)
          ((exPickSpreadTOR.structured_bet.team.getD "").toUpper)) (-3 / 2) [exGame34]) :=
  ⟨rfl, C5_alias_scoping.1 exPickSpreadTOR [exGame34] (-3 / 2) rfl⟩

/-- C4 counterexample: in `verify_pending_picks` a bet whose verification
raises (a pending spread bet with no line: `TypeError` at the `:+` format) is
recorded with verification_status=error and the message in
`verification_error` — but no verification outcome (hence no `notes`) is ever
written for it, contradicting the claim's "exception message in its notes";
and the same two-bet batch aborts wholesale in `verify_all_bets`, which has no
per-bet handler at all. -/
theorem C4_counterexample :
    (verify_pending_picks (fun _ _ => [exGameTB]) "T"
        [exPickBadSpread, exPickPendingML]).length = 2 ∧
    ((verify_pending_picks (fun _ _ => [exGameTB]) "T"
        [exPickBadSpread, exPickPendingML])[0]?).map Pick.verification_status =
      some "error" ∧
    ((verify_pending_picks (fun _ _ => [exGameTB]) "T"
        [exPickBadSpread, exPickPendingML])[0]?).map Pick.verification = some none ∧
    ((verify_pending_picks (fun _ _ => [exGameTB]) "T"
        [exPickBadSpread, exPickPendingML])[0]?).map Pick.verification_error =
      some (some "TypeError: unsupported format string passed to NoneType.__format__") ∧
    ((verify_pending_picks (fun _ _ => [exGameTB]) "T"
        [exPickBadSpread, exPickPendingML])[1]?).map Pick.verification_status =
      some "completed" ∧
    verify_all_bets (fun _ _ => [exGameTB]) "T" [exPickBadSpread, exPickPendingML] =
      Except.error "TypeError: unsupported format string passed to NoneType.__format__" :=
  ⟨rfl, by with_unfolding_all rfl, by with_unfolding_all rfl,
   by with_unfolding_all rfl, by with_unfolding_all rfl, by with_unfolding_all rfl⟩

/-- C4 (amended): in the automated daily system's verification loop an
exception while verifying one pending bet does not abort the batch: the loop
yields one record per input pick, and a pick whose `verify_bet` raises is
returned with verification_status=error and the exception message in its
`verification_error` field (its `verification` dict — and so any `notes` — is
left unwritten), independently of every other pick; `verify_all_bets` of the
standalone verification system, by contrast, has no per-bet handler. -/
theorem C4_error_isolation (fetch : String → String → List Game) (now : String)
    (picks : List Pick) :
    (verify_pending_picks fetch now picks).length = picks.length ∧
    (∀ (i : Nat) (p : Pick) (msg : String), picks[i]? = some p →
      p.verification_status = "pending" →
      verify_bet fetch p (date_str_of p) = Except.error msg →
      (verify_pending_picks fetch now picks)[i]? =
        some { p with verification_status := "error",
                      verification_error := some msg }) := by
  refine ⟨(verify_pending_length_get fetch now picks).1, ?_⟩
  intro i p msg hget hpend herr
  rw [(verify_pending_length_get fetch now picks).2 i p hget]
  simp [hpend, processPendingPick, herr]

/-- C4 witness: the error-isolation property instantiated on a concrete
two-bet batch whose first bet raises. -/
theorem C4_witness :
    ([exPickBadSpread, exPickPendingML][0]? = some exPickBadSpread ∧
     exPickBadSpread.verification_status = "pending" ∧
     verify_bet (fun _ _ => [exGameTB]) exPickBadSpread (date_str_of exPickBadSpread) =
       Except.error "TypeError: unsupported format string passed to NoneType.__format__") ∧
    (verify_pending_picks (fun _ _ => [exGameTB]) "T"
        [exPickBadSpread, exPickPendingML])[0]? =
      some { exPickBadSpread with
               verification_status := "error",
               verification_error :=
                 some "TypeError: unsupported format string passed to NoneType.__format__" } :=
  ⟨⟨rfl, rfl, by with_unfolding_all rfl⟩,
   (C4_error_isolation (fun _ _ => [exGameTB]) "T" [exPickBadSpread, exPickPendingML]).2
     0 exPickBadSpread
     "TypeError: unsupported format string passed to NoneType.__format__"
     rfl rfl (by with_unfolding_all rfl)⟩

/-- C8: an unknown team code resolves, without raising, to the single
lowercased-code fragment; when no competitor name of any game contains any
resolved fragment, `verify_spread_bet` reports status=team_not_found with
result=null; and the batch loop continues independently over every pick. -/
theorem C8_unknown_team_fallback :
    (∀ (sport team : String), dictGet (team_mappings sport) team = none →
      team_keywords_for sport team = [team.toLower]) ∧
    (∀ (bet : Pick) (games : List Game) (l : Rat),
      bet.structured_bet.line = some l →
      (∀ g ∈ games, ∀ c ∈ g.competitors,
        ∀ kw ∈ team_keywords_for ((bet.sport.getD "").toUpper)
            ((bet.structured_bet.team.getD "").toUpper),
          strIn kw c.displayName.toLower = false) →
      verify_spread_bet bet games =
        Except.ok { status := "team_not_found", result := none }) ∧
    (∀ (fetch : String → String → List Game) (now : String) (picks : List Pick),
      (verify_pending_picks fetch now picks).length = picks.length ∧
      (∀ (i : Nat) (p : Pick), picks[i]? = some p →
        (verify_pending_picks fetch now picks)[i]? =
          some (if p.verification_status == "pending"
                then processPendingPick fetch now p else p))) := by
  refine ⟨?_, ?_, fun fetch now picks => verify_pending_length_get fetch now picks⟩
  · intro sport team h
    simp [team_keywords_for, h]
  · intro bet games l hline h
    simp only [verify_spread_bet, hline]
    rw [spreadLoop_no_match _ _ _ h]

/-- C8 witness: the fallback and team_not_found path instantiated on the
unknown code ZZZ against a real game list. -/
theorem C8_witness :
    (dictGet (team_mappings "MLB") "ZZZ" = none ∧
     team_keywords_for "MLB" "ZZZ" = ["ZZZ".toLower]) ∧
    (exPickSpreadZZZ.structured_bet.line = some (-3 / 2) ∧
     verify_spread_bet exPickSpreadZZZ [exGameTB] =
       Except.ok { status := "team_not_found", result := none }) ∧
    (verify_pending_picks (fun _ _ => [exGameTB]) "T" [exPickPendingML]).length = 1 :=
  ⟨⟨by decide, C8_unknown_team_fallback.1 "MLB" "ZZZ" (by decide)⟩,
   ⟨rfl, C8_unknown_team_fallback.2.1 exPickSpreadZZZ [exGameTB] (-3 / 2) rfl
      (by with_unfolding_all decide)⟩,
   (C8_unknown_team_fallback.2.2 (fun _ _ => [exGameTB]) "T" [exPickPendingML]).1⟩

theorem foldl_append_eq_join {α β : Type} (f : α → List β) :
    ∀ (l : List α) (init : List β),
      l.foldl (fun acc x => acc ++ f x) init = init ++ (l.map f).flatten
  | [], init => by simp
  | x :: xs, init => by
    simp only [List.foldl_cons, List.map_cons, List.flatten]
    rw [foldl_append_eq_join f xs (init ++ f x)]
    simp [List.append_assoc]

theorem tryAt_start (r : RE) (cs : List Char) (pos : Nat) (m : MatchRes)
    (h : tryAt r cs pos = some m) : m.start = pos := by
  simp only [tryAt] at h
  rcases Option.map_eq_some'.mp h with ⟨res, _, rfl⟩
  rfl

theorem findIterAux_start_ge (r : RE) (cs : List Char) :
    ∀ (fuel pos : Nat), ∀ m ∈ findIterAux r cs pos fuel, pos ≤ m.start := by
  intro fuel
  induction fuel with
  | zero => intro pos m hm; simp [findIterAux] at hm
  | succ fuel ih =>
    intro pos m hm
    simp only [findIterAux] at hm
    split at hm
    · simp at hm
    · split at hm
      · rcases List.mem_cons.mp hm with rfl | hm'
        · exact le_of_eq (tryAt_start r cs pos m (by assumption)).symm
        · refine le_trans ?_ (ih _ m hm')
          split
          · exact le_of_lt (by assumption)
          · exact Nat.le_succ pos
      · exact le_trans (Nat.le_succ pos) (ih _ m hm)

theorem findIterAux_chain (r : RE) (cs : List Char) :
    ∀ (fuel pos : Nat),
      List.Chain' (· < ·) ((findIterAux r cs pos fuel).map MatchRes.start) := by
  intro fuel
  induction fuel with
  | zero => intro pos; simp [findIterAux]
  | succ fuel ih =>
    intro pos
    simp only [findIterAux]
    split
    · simp
    · cases htry : tryAt r cs pos with
      | none => exact ih (pos + 1)
      | some m0 =>
        simp only [List.map_cons]
        rw [List.chain'_cons']
        refine ⟨?_, ih _⟩
        intro b hb
        have hpos : m0.start = pos := tryAt_start r cs pos m0 htry
        cases hrest : findIterAux r cs (if m0.stop > pos then m0.stop else pos + 1) fuel with
        | nil => rw [hrest] at hb; simp at hb
        | cons m1 ms =>
          rw [hrest] at hb
          simp only [List.map_cons, List.head?_cons, Option.mem_def,
            Option.some.injEq] at hb
          subst hb
          have h1 : (if m0.stop > pos then m0.stop else pos + 1) ≤ m1.start :=
            findIterAux_start_ge r cs fuel _ m1 (by rw [hrest]; exact List.mem_cons_self _ _)
          rw [hpos]
          refine lt_of_lt_of_le ?_ h1
          split
          · exact (by assumption)
          · exact Nat.lt_succ_self pos

/-- C9 counterexample: on "KC ML and LAD -1.5" extraction returns the spread
bet (whose match starts at offset 10) BEFORE the moneyline bet (whose match
starts at offset 0) — pattern-family order, not position order; and
"D. Achane Ov 52.5 rush yds" matches the player-prop `Ov` pattern family yet
extraction yields no bet at all for it, so a matching family can contribute
zero bets. -/
theorem C9_counterexample :
    extract_bet_from_text "KC ML and LAD -1.5" =
      [{ type := some "spread", team := some "LAD", line := some (-3 / 2),
         raw_text := some "LAD -1.5" },
       { type := some "moneyline", team := some "KC", raw_text := some "KC ML" }] ∧
    (findIter p1re ("KC ML and LAD -1.5".toList)).map MatchRes.start = [10] ∧
    (findIter p2re ("KC ML and LAD -1.5".toList)).map MatchRes.start = [0] ∧
    (findIter p4re ("D. Achane Ov 52.5 rush yds".toList)).length = 1 ∧
    extract_bet_from_text "D. Achane Ov 52.5 rush yds" = [] :=
  ⟨by with_unfolding_all decide, by decide, by decide, by decide,
   by with_unfolding_all decide⟩

/-- C9 (amended): extraction returns the structured bets grouped by pattern
family in the fixed pattern order — the concatenation of the five finditer
scans — with each family's matches in strictly increasing position order;
overlapping matches from the four recognized families are all kept with no
deduplication, but every match of the fifth (player-prop `Ov`) pattern is
discarded by `parse_bet_match` and contributes nothing. -/
theorem C9_extraction_order :
    (∀ text : String,
      extract_bet_from_text text =
        (bet_patterns.map (fun pat =>
          (findIter pat.2 text.toList).filterMap
            (fun m => parse_bet_match m pat.1))).flatten) ∧
    (∀ (r : RE) (cs : List Char),
      List.Chain' (· < ·) ((findIter r cs).map MatchRes.start)) ∧
    (∀ m : MatchRes, parse_bet_match m p4src = none) := by
  refine ⟨?_, ?_, ?_⟩
  · intro text
    simp only [extract_bet_from_text]
    rw [foldl_append_eq_join]
    simp
  · intro r cs
    exact findIterAux_chain r cs (cs.length + 1) 0
  · intro m
    have h1 : strIn "Over|Under" p4src = false := by decide
    have h2 : strIn "[+-]" p4src = false := by decide
    have h3 : strIn "ML" p4src = false := by decide
    have h4 : strIn "TT" p4src = false := by decide
    simp [parse_bet_match, h1, h2, h3, h4]

set_option maxRecDepth 1000000 in
/-- C2 counterexample: the pick whose raw text is the single space " " is
non-empty, but its HTML-stripped, whitespace-collapsed text is empty, so
parsing yields NO structured bet at all; and for a long pattern-free text the
fallback `unknown` bet's own raw match text carries only the first 100
characters (the 200-character prefix goes to the outer record's
raw_pick_text). -/
theorem C2_counterexample :
    ({ pick := some " " } : PickData).pick.getD "" ≠ "" ∧
    parse_pick { pick := some " " } = [] ∧
    (parse_pick { pick := some dotsText }).map
      (fun b => b.structured_bet.raw_text) = [some (dotsText.take 100)] ∧
    (parse_pick { pick := some dotsText }).map
      (fun b => b.raw_pick_text) = [dotsText.take 200] ∧
    dotsText.take 100 ≠ dotsText.take 200 :=
  ⟨by decide, by decide, by with_unfolding_all decide,
   by with_unfolding_all decide, by decide⟩

/-- C2 (amended): for every pick whose CLEANED (HTML-stripped,
whitespace-collapsed, stripped) text is non-empty, parsing yields at least one
structured bet; when none of the bet patterns produces a bet, exactly one
`unknown`-kind entry is emitted, carrying the first 200 characters of the
cleaned text as the record's raw_pick_text and the first 100 characters as the
structured bet's own raw_text. -/
theorem C2_unknown_fallback (pick_data : PickData)
    (h : clean_html (pick_data.pick.getD "") ≠ "") :
    1 ≤ (parse_pick pick_data).length ∧
    (extract_bet_from_text (clean_html (pick_data.pick.getD "")) = [] →
      parse_pick pick_data =
        [{ expert := pyStrip ((pick_data.expert.getD "").replace " Free Expert Pick" ""),
           date := pick_data.date,
           sport := (let s0 := pick_data.sport.getD ""
                     if s0 ≠ "" then s0
                     else determine_sport (clean_html (pick_data.pick.getD "")) {}),
           bet_type := "unknown",
           raw_pick_text := (clean_html (pick_data.pick.getD "")).take 200,
           structured_bet := { type := some "unknown",
                               raw_text := some ((clean_html (pick_data.pick.getD "")).take 100) },
           original_data := pick_data }]) := by
  constructor
  · by_cases hb : extract_bet_from_text (clean_html (pick_data.pick.getD "")) = []
    · simp [parse_pick, hb, h]
    · rcases List.exists_cons_of_ne_nil hb with ⟨b, bs, hcons⟩
      simp [parse_pick, hcons]
  · intro hext
    simp [parse_pick, hext, h]

/-- C2 witness: the fallback instantiated on the pattern-free pick "hello". -/
theorem C2_witness :
    clean_html (({ pick := some "hello" } : PickData).pick.getD "") ≠ "" ∧
    (1 ≤ (parse_pick { pick := some "hello" }).length ∧
     (extract_bet_from_text
        (clean_html (({ pick := some "hello" } : PickData).pick.getD "")) = [] →
       parse_pick { pick := some "hello" } =
         [{ expert := pyStrip ((({ pick := some "hello" } : PickData).expert.getD "").replace
              " Free Expert Pick" ""),
            date := ({ pick := some "hello" } : PickData).date,
            sport := (let s0 := ({ pick := some "hello" } : PickData).sport.getD ""
                      if s0 ≠ "" then s0
                      else determine_sport
                        (clean_html (({ pick := some "hello" } : PickData).pick.getD "")) {}),
            bet_type := "unknown",
            raw_pick_text :=
              (clean_html (({ pick := some "hello" } : PickData).pick.getD "")).take 200,
            structured_bet := { type := some "unknown",
                                raw_text := some ((clean_html
                                  (({ pick := some "hello" } : PickData).pick.getD "")).take 100) },
            original_data := { pick := some "hello" } }])) :=
  ⟨by decide, C2_unknown_fallback { pick := some "hello" } (by decide)⟩

theorem aLookup_cons_pos {α : Type} (k' : String) (v : α) (rest : List (String × α))
    (k : String) (h : (k' == k) = true) :
    aLookup ((k', v) :: rest) k = some v := by
  simp [aLookup, List.find?_cons_of_pos, h]

theorem aLookup_cons_neg {α : Type} (k' : String) (v : α) (rest : List (String × α))
    (k : String) (h : (k' == k) = false) :
    aLookup ((k', v) :: rest) k = aLookup rest k := by
  simp only [aLookup]
  rw [List.find?_cons_of_neg]
  simp [h]

theorem aLookup_append {α : Type} (m m' : List (String × α)) (k : String) :
    aLookup (m ++ m') k =
      (match aLookup m k with | some v => some v | none => aLookup m' k) := by
  induction m with
  | nil => rfl
  | cons kv rest ih =>
    obtain ⟨k', v⟩ := kv
    cases h : (k' == k) with
    | true =>
      rw [List.cons_append, aLookup_cons_pos k' v (rest ++ m') k h,
        aLookup_cons_pos k' v rest k h]
    | false =>
      rw [List.cons_append, aLookup_cons_neg k' v (rest ++ m') k h,
        aLookup_cons_neg k' v rest k h, ih]

theorem aLookup_updFirst_self {α : Type} (f : α → α) (k : String)
    (m : List (String × α)) (a : α) (h : aLookup m k = some a) :
    aLookup (updFirst m k f) k = some (f a) := by
  induction m with
  | nil => simp [aLookup] at h
  | cons kv rest ih =>
    obtain ⟨k', v⟩ := kv
    cases hk : (k' == k) with
    | true =>
      rw [aLookup_cons_pos k' v rest k hk] at h
      rw [← Option.some_inj.mp h]
      simp only [updFirst, hk, if_true]
      exact aLookup_cons_pos k' (f v) rest k hk
    | false =>
      rw [aLookup_cons_neg k' v rest k hk] at h
      simp only [updFirst, hk, Bool.false_eq_true, if_false]
      rw [aLookup_cons_neg k' v (updFirst rest k f) k hk]
      exact ih h

theorem aLookup_updFirst_ne {α : Type} (f : α → α) (k e : String)
    (hne : (k == e) = false) (m : List (String × α)) :
    aLookup (updFirst m k f) e = aLookup m e := by
  induction m with
  | nil => rfl
  | cons kv rest ih =>
    obtain ⟨k', v⟩ := kv
    cases hk : (k' == k) with
    | true =>
      have hk'e : (k' == e) = false := by
        rw [show k' = k from eq_of_beq hk]; exact hne
      simp only [updFirst, hk, if_true]
      rw [aLookup_cons_neg k' (f v) rest e hk'e, aLookup_cons_neg k' v rest e hk'e]
    | false =>
      simp only [updFirst, hk, Bool.false_eq_true, if_false]
      cases hk'e : (k' == e) with
      | true =>
        rw [aLookup_cons_pos k' v (updFirst rest k f) e hk'e,
          aLookup_cons_pos k' v rest e hk'e]
      | false =>
        rw [aLookup_cons_neg k' v (updFirst rest k f) e hk'e,
          aLookup_cons_neg k' v rest e hk'e, ih]

theorem aLookup_aUpsert_self {α : Type} (m : List (String × α)) (k : String)
    (dflt : α) (f : α → α) :
    aLookup (aUpsert m k dflt f) k = some (f ((aLookup m k).getD dflt)) := by
  unfold aUpsert
  cases h : aLookup m k with
  | some a =>
    simp only [h, Option.isSome_some, if_true, Option.getD_some]
    exact aLookup_updFirst_self f k m a h
  | none =>
    simp only [h, Option.isSome_none, Bool.false_eq_true, if_false, Option.getD_none]
    rw [aLookup_append, h]
    exact aLookup_cons_pos k (f dflt) [] k (by simp)

theorem aLookup_aUpsert_ne {α : Type} (m : List (String × α)) (k e : String)
    (dflt : α) (f : α → α) (hne : (k == e) = false) :
    aLookup (aUpsert m k dflt f) e = aLookup m e := by
  unfold aUpsert
  cases h : aLookup m k with
  | some a =>
    simp only [h, Option.isSome_some, if_true]
    exact aLookup_updFirst_ne f k e hne m
  | none =>
    simp only [h, Option.isSome_none, Bool.false_eq_true, if_false]
    rw [aLookup_append]
    rw [aLookup_cons_neg k (f dflt) [] e hne]
    cases he : aLookup m e <;> simp [aLookup]

theorem aLookup_foldl_upsert_some {α β : Type} (key : β → String) (step : α → β → α)
    (dflt : α) :
    ∀ (bets : List β) (m : List (String × α)) (e : String) (a : α),
      aLookup m e = some a →
      aLookup (bets.foldl (fun acc b => aUpsert acc (key b) dflt (fun x => step x b)) m) e =
        some ((bets.filter (fun b => key b == e)).foldl step a) := by
  intro bets
  induction bets with
  | nil => intro m e a h; simpa using h
  | cons b bs ih =>
    intro m e a h
    simp only [List.foldl_cons, List.filter_cons]
    cases hb : (key b == e) with
    | true =>
      have hkey : key b = e := eq_of_beq hb
      have h2 : aLookup (aUpsert m (key b) dflt (fun x => step x b)) e =
          some (step a b) := by
        rw [hkey, aLookup_aUpsert_self, h]
        rfl
      rw [ih _ e (step a b) h2]
      simp
    | false =>
      have h2 : aLookup (aUpsert m (key b) dflt (fun x => step x b)) e =
          some a := by
        rw [aLookup_aUpsert_ne m (key b) e dflt _ hb]
        exact h
      rw [ih _ e a h2]
      simp [hb]

theorem aLookup_foldl_upsert_none {α β : Type} (key : β → String) (step : α → β → α)
    (dflt : α) :
    ∀ (bets : List β) (m : List (String × α)) (e : String),
      aLookup m e = none →
      aLookup (bets.foldl (fun acc b => aUpsert acc (key b) dflt (fun x => step x b)) m) e =
        (if (bets.filter (fun b => key b == e)).isEmpty then none
         else some ((bets.filter (fun b => key b == e)).foldl step dflt)) := by
  intro bets
  induction bets with
  | nil => intro m e h; simpa using h
  | cons b bs ih =>
    intro m e h
    simp only [List.foldl_cons, List.filter_cons]
    cases hb : (key b == e) with
    | true =>
      have hkey : key b = e := eq_of_beq hb
      have h2 : aLookup (aUpsert m (key b) dflt (fun x => step x b)) e =
          some (step dflt b) := by
        rw [hkey, aLookup_aUpsert_self, h]
        rfl
      rw [aLookup_foldl_upsert_some key step dflt bs _ e (step dflt b) h2]
      simp
    | false =>
      have h2 : aLookup (aUpsert m (key b) dflt (fun x => step x b)) e = none := by
        rw [aLookup_aUpsert_ne m (key b) e dflt _ hb]
        exact h
      rw [ih _ e h2]
      simp [hb]

theorem aLookup_map_snd {α γ : Type} (g : α → γ) (m : List (String × α)) (e : String) :
    aLookup (m.map (fun p => (p.1, g p.2))) e = (aLookup m e).map g := by
  induction m with
  | nil => rfl
  | cons kv rest ih =>
    obtain ⟨k', v⟩ := kv
    cases h : (k' == e) with
    | true =>
      simp only [List.map_cons]
      rw [aLookup_cons_pos k' (g v) _ e h, aLookup_cons_pos k' v rest e h]
      rfl
    | false =>
      simp only [List.map_cons]
      rw [aLookup_cons_neg k' (g v) _ e h, aLookup_cons_neg k' v rest e h, ih]

theorem countP_add_countP_not {α : Type} (p : α → Bool) (l : List α) :
    l.countP p + l.countP (fun a => !p a) = l.length := by
  induction l with
  | nil => rfl
  | cons x xs ih =>
    cases h : p x <;>
      simp [List.countP_cons, h] <;> omega

theorem dashAddBet_fields (d : DashExpertStats) (b : VBet) :
    (dashAddBet d b).wins =
      d.wins + (if b.verification.result == some "win" then 1 else 0) ∧
    (dashAddBet d b).losses =
      d.losses + (if b.verification.result == some "win" then 0 else 1) ∧
    (dashAddBet d b).total = d.total + 1 := by
  cases h : (b.verification.result == some "win") <;> simp [dashAddBet, h]

theorem dashFold_fields (l : List VBet) :
    ∀ (d : DashExpertStats),
      (l.foldl dashAddBet d).wins =
        d.wins + l.countP (fun b => b.verification.result == some "win") ∧
      (l.foldl dashAddBet d).losses =
        d.losses + l.countP (fun b => !(b.verification.result == some "win")) ∧
      (l.foldl dashAddBet d).total = d.total + l.length := by
  induction l with
  | nil => intro d; simp
  | cons b bs ih =>
    intro d
    simp only [List.foldl_cons, List.countP_cons, List.length_cons]
    obtain ⟨h1, h2, h3⟩ := ih (dashAddBet d b)
    obtain ⟨g1, g2, g3⟩ := dashAddBet_fields d b
    refine ⟨?_, ?_, ?_⟩
    · rw [h1, g1]
      cases hr : (b.verification.result == some "win") <;> simp [hr] <;> omega
    · rw [h2, g2]
      cases hr : (b.verification.result == some "win") <;> simp [hr] <;> omega
    · rw [h3, g3]
      omega

theorem reportAddPick_eq (d : ReportExpertData) (p : CPick) :
    reportAddPick d p =
      { picks := d.picks ++ [p],
        wins := d.wins + (if reportResult p == some "win" then 1 else 0),
        losses := d.losses + (if reportResult p == some "loss" then 1 else 0) } := by
  cases h1 : (reportResult p == some "win") with
  | true =>
    have h2 : (reportResult p == some "loss") = false := by
      rw [show reportResult p = some "win" from eq_of_beq h1]
      decide
    simp [reportAddPick, h1, h2]
  | false =>
    cases h2 : (reportResult p == some "loss") <;> simp [reportAddPick, h1, h2]

theorem reportFold_record (l : List CPick) :
    ∀ (d : ReportExpertData),
      l.foldl reportAddPick d =
        { picks := d.picks ++ l,
          wins := d.wins + l.countP (fun p => reportResult p == some "win"),
          losses := d.losses + l.countP (fun p => reportResult p == some "loss") } := by
  induction l with
  | nil => intro d; simp
  | cons p ps ih =>
    intro d
    simp only [List.foldl_cons, List.countP_cons]
    rw [reportAddPick_eq, ih]
    congr 1
    · simp
    · cases h : (reportResult p == some "win") <;> simp [h] <;> omega
    · cases h : (reportResult p == some "loss") <;> simp [h] <;> omega

/-- C6 counterexample: a single push bet (settled-count zero) by expert X.
`get_stats_from_real_data` keeps X but counts the push as a LOSS (losses = 1,
not the zero counts the claim requires); and `generate_accuracy_report` on the
same situation returns no report at all (None) rather than an output
containing X with zero counts. -/
theorem C6_counterexample :
    ([exPushVBet].countP (fun b => b.verification.result == some "win" ||
        b.verification.result == some "loss") = 0) ∧
    aLookup (get_stats_from_real_data [exPushVBet]).experts "X" =
      some { wins := 0, losses := 1, total := 1, verified := 1, unverified := 0,
             sports := [("Unknown", { wins := 0, losses := 1 })],
             bet_types := [("Unknown", { wins := 0, losses := 1 })],
             picks := [exPushVBet], accuracy := 0 } ∧
    generate_accuracy_report "2025-09-18" [exPushCPick] = none :=
  ⟨by decide, by with_unfolding_all decide, by with_unfolding_all decide⟩

/-- C6 (amended): `generate_accuracy_report`'s experts map keeps every expert
appearing in the input, with zero counts when none of their picks settled
win/loss (though the report itself is only produced when at least one expert
has a settled pick); `get_stats_from_real_data` keeps every input expert but
counts every non-win result — including pushes — as a loss, so a zero-settled
expert shows losses equal to their bet count; its per-expert accuracy is the
percentage wins/(wins+losses)*100 (total always equals wins+losses) and the
report's overall accuracy is wins/(wins+losses)*100, both 0 when the
denominator is 0. -/
theorem C6_aggregation :
    (∀ (picks : List CPick) (e : String),
      picks.filter (fun p => p.expert == e) ≠ [] →
      aLookup (reportExperts picks) e =
        some { picks := picks.filter (fun p => p.expert == e),
               wins := (picks.filter (fun p => p.expert == e)).countP
                 (fun p => reportResult p == some "win"),
               losses := (picks.filter (fun p => p.expert == e)).countP
                 (fun p => reportResult p == some "loss") }) ∧
    (∀ (bets : List VBet) (e : String),
      bets.filter (fun b => b.expert == e) ≠ [] →
      ∃ s, aLookup (get_stats_from_real_data bets).experts e = some s ∧
        s.wins = (bets.filter (fun b => b.expert == e)).countP
          (fun b => b.verification.result == some "win") ∧
        s.losses = (bets.filter (fun b => b.expert == e)).countP
          (fun b => !(b.verification.result == some "win")) ∧
        s.total = s.wins + s.losses ∧
        s.accuracy =
          (if 0 < s.total then (s.wins : Rat) / (s.total : Rat) * 100 else 0)) ∧
    (∀ (yesterday : String) (picks : List CPick) (r : AccuracyReport),
      generate_accuracy_report yesterday picks = some r →
      r.verified = r.wins + r.losses ∧
      r.accuracy =
        (if 0 < r.verified then (r.wins : Rat) / (r.verified : Rat) * 100 else 0)) := by
  refine ⟨?_, ?_, ?_⟩
  · intro picks e hne
    rcases hf : picks.filter (fun p => p.expert == e) with _ | ⟨x, xs⟩
    · exact absurd hf hne
    · have hfold := aLookup_foldl_upsert_none (fun p : CPick => p.expert)
        reportAddPick {} picks [] e rfl
      simp only [hf, List.isEmpty_cons, Bool.false_eq_true, if_false] at hfold
      exact hfold.trans (by rw [reportFold_record (x :: xs) {}, ← hf]; simp)
  · intro bets e hne
    rcases hf : bets.filter (fun b => b.expert == e) with _ | ⟨x, xs⟩
    · exact absurd hf hne
    · have hfold := aLookup_foldl_upsert_none (fun b : VBet => b.expert)
        dashAddBet {} bets [] e rfl
      simp only [hf, List.isEmpty_cons, Bool.false_eq_true, if_false] at hfold
      have hmap := aLookup_map_snd
        (fun d : DashExpertStats => { d with accuracy :=
          if d.total > 0 then (d.wins : Rat) / (d.total : Rat) * 100 else 0 })
        (bets.foldl (fun acc b => aUpsert acc b.expert {} (fun x => dashAddBet x b)) []) e
      obtain ⟨hw, hl, ht⟩ := dashFold_fields (x :: xs) {}
      have hcn := countP_add_countP_not
        (fun b : VBet => b.verification.result == some "win") (x :: xs)
      refine ⟨_, hmap.trans (by rw [hfold]; rfl), ?_, ?_, ?_, ?_⟩
      · show ((x :: xs).foldl dashAddBet {}).wins = _
        rw [hf]
        simpa using hw
      · show ((x :: xs).foldl dashAddBet {}).losses = _
        rw [hf]
        simpa using hl
      · show ((x :: xs).foldl dashAddBet {}).total =
          ((x :: xs).foldl dashAddBet {}).wins + ((x :: xs).foldl dashAddBet {}).losses
        simp only [Nat.zero_add] at hw hl ht
        omega
      · rfl
  · intro yesterday picks r h
    simp only [generate_accuracy_report] at h
    split at h
    · exact absurd h (by simp)
    · rw [← Option.some_inj.mp h]
      exact ⟨rfl, rfl⟩

/-- C6 witness: the aggregation facts instantiated on concrete inputs — a push
pick by X plus a win pick by Y for the report side, and a single push bet by X
for the dashboard side. -/
theorem C6_witness :
    ([exPushCPick, exWinCPick].filter (fun p => p.expert == "X") ≠ [] ∧
     aLookup (reportExperts [exPushCPick, exWinCPick]) "X" =
       some { picks := [exPushCPick, exWinCPick].filter (fun p => p.expert == "X"),
              wins := ([exPushCPick, exWinCPick].filter (fun p => p.expert == "X")).countP
                (fun p => reportResult p == some "win"),
              losses := ([exPushCPick, exWinCPick].filter (fun p => p.expert == "X")).countP
                (fun p => reportResult p == some "loss") }) ∧
    ([exPushVBet].filter (fun b => b.expert == "X") ≠ [] ∧
     ∃ s, aLookup (get_stats_from_real_data [exPushVBet]).experts "X" = some s ∧
       s.wins = ([exPushVBet].filter (fun b => b.expert == "X")).countP
         (fun b => b.verification.result == some "win") ∧
       s.losses = ([exPushVBet].filter (fun b => b.expert == "X")).countP
         (fun b => !(b.verification.result == some "win")) ∧
       s.total = s.wins + s.losses ∧
       s.accuracy =
         (if 0 < s.total then (s.wins : Rat) / (s.total : Rat) * 100 else 0)) ∧
    (generate_accuracy_report "d" [exPushCPick, exWinCPick] =
       some { date := "d", total_picks := 2, verified := 1, wins := 1, losses := 0,
              accuracy := 100,
              experts := [("X", { picks := [exPushCPick], wins := 0, losses := 0 }),
                          ("Y", { picks := [exWinCPick], wins := 1, losses := 0 })],
              sports := [("MLB", { total := 2, wins := 1, losses := 0 })],
              picks := [exPushCPick, exWinCPick] } ∧
     ({ date := "d", total_picks := 2, verified := 1, wins := 1, losses := 0,
        accuracy := 100,
        experts := [("X", { picks := [exPushCPick], wins := 0, losses := 0 }),
                    ("Y", { picks := [exWinCPick], wins := 1, losses := 0 })],
        sports := [("MLB", { total := 2, wins := 1, losses := 0 })],
        picks := [exPushCPick, exWinCPick] } : AccuracyReport).verified =
       ({ date := "d", total_picks := 2, verified := 1, wins := 1, losses := 0,
          accuracy := 100,
          experts := [("X", { picks := [exPushCPick], wins := 0, losses := 0 }),
                      ("Y", { picks := [exWinCPick], wins := 1, losses := 0 })],
          sports := [("MLB", { total := 2, wins := 1, losses := 0 })],
          picks := [exPushCPick, exWinCPick] } : AccuracyReport).wins +
       ({ date := "d", total_picks := 2, verified := 1, wins := 1, losses := 0,
          accuracy := 100,
          experts := [("X", { picks := [exPushCPick], wins := 0, losses := 0 }),
                      ("Y", { picks := [exWinCPick], wins := 1, losses := 0 })],
          sports := [("MLB", { total := 2, wins := 1, losses := 0 })],
          picks := [exPushCPick, exWinCPick] } : AccuracyReport).losses) :=
  ⟨⟨by decide, C6_aggregation.1 [exPushCPick, exWinCPick] "X" (by decide)⟩,
   ⟨by decide, C6_aggregation.2.1 [exPushVBet] "X" (by decide)⟩,
   by with_unfolding_all decide,
   (C6_aggregation.2.2 "d" [exPushCPick, exWinCPick] _
     (by with_unfolding_all decide)).1⟩

end JoeyV
